import Mathlib

/-!
Shallow embedding of the AUS-Lab UAV swarm control core
(`simulation/controllers.py` and `simulation/swarm.py`), with theorems
settling the specification claims about it.

Conventions of the embedding:
- Python floats are modelled as real numbers (`ℝ`).
- `numpy` 3-vectors `[x, y, z]` are modelled by the `Vec3` structure;
  `np.linalg.norm` is `Vec3.normV`, `np.clip` is `clip`.
- Python dictionaries keyed by drone id are modelled as total functions
  out of `ℤ` (Python `int` keys may be negative or out of range);
  entries that may be absent (`target_positions`, `hover_positions`, ...)
  take values in `Option`.
- Exceptions escaping a method are modelled with `Except String`.
- The external physics engine (gym-pybullet-drones `VelocityAviary`) is
  out of scope for the repository; only its boundary is modelled: the
  per-drone position/yaw arrays it maintains, numpy's (negative-index
  aware) bounds-checked indexing of them, and an oracle giving the
  kinematics it returns from one physics step.
-/

namespace AUSLab

open Real

noncomputable section

/-- `np.clip(x, lo, hi)`: equals `min (max x lo) hi` (numpy returns `hi`
when `lo > hi`). -/
def clip (x lo hi : ℝ) : ℝ := min (max x lo) hi

/-- A numpy `[x, y, z]` float vector. -/
@[ext]
structure Vec3 where
  x : ℝ
  y : ℝ
  z : ℝ

namespace Vec3

def sub (a b : Vec3) : Vec3 := ⟨a.x - b.x, a.y - b.y, a.z - b.z⟩

instance : Sub Vec3 := ⟨sub⟩

/-- Scalar multiplication `c * v` of a numpy vector. -/
def smul (c : ℝ) (v : Vec3) : Vec3 := ⟨c * v.x, c * v.y, c * v.z⟩

def zero : Vec3 := ⟨0, 0, 0⟩

/-- `np.linalg.norm(v)` for a 3-vector. -/
def normV (v : Vec3) : ℝ := Real.sqrt (v.x ^ 2 + v.y ^ 2 + v.z ^ 2)

theorem sub_def (a b : Vec3) : a - b = ⟨a.x - b.x, a.y - b.y, a.z - b.z⟩ := rfl

end Vec3

/-- `np.arctan2 y x`, modelled as the argument of the complex number
`x + y*I`, which lies in `(-π, π]`. -/
def arctan2 (y x : ℝ) : ℝ := Complex.arg (x + y * Complex.I)

/-! ### `controllers.py`: PIDController -/

/-- State of `PIDController` (`controllers.py` lines 9–75).
`prev_time` is initialized to `None`, reset to `None`, and never read by
`update`; it is kept for structural fidelity. -/
structure PIDController where
  kp : ℝ
  ki : ℝ
  kd : ℝ
  out_lo : ℝ           -- output_limits[0]
  out_hi : ℝ           -- output_limits[1]
  integral : ℝ
  prev_error : ℝ
  prev_time : Option ℝ

namespace PIDController

/-- `PIDController.__init__`: fresh controller with the given gains and
output limits. -/
def init (kp ki kd lo hi : ℝ) : PIDController :=
  { kp := kp, ki := ki, kd := kd, out_lo := lo, out_hi := hi,
    integral := 0, prev_error := 0, prev_time := none }

/-- `PIDController.reset` (lines 31–35). -/
def reset (c : PIDController) : PIDController :=
  { c with integral := 0, prev_error := 0, prev_time := none }

open Classical in
/-- `PIDController.update(error, dt)` (lines 37–75): returns the clamped
output together with the mutated controller state. -/
def update (c : PIDController) (error dt : ℝ) : ℝ × PIDController :=
  let p_term := c.kp * error
  let integral := c.integral + error * dt
  let i_term := c.ki * integral
  let derivative := if dt > 0 then (error - c.prev_error) / dt else 0
  let d_term := c.kd * derivative
  let output := p_term + i_term + d_term
  let clamped := clip output c.out_lo c.out_hi
  -- anti-windup back-off when the clamp changed the output
  let integral2 := if clamped ≠ output then integral - error * dt * 0.5 else integral
  (clamped, { c with integral := integral2, prev_error := error })

end PIDController

/-! ### `controllers.py`: PositionController -/

/-- `PositionController` (lines 78–147): four independent PIDs. -/
structure PositionController where
  pid_x : PIDController
  pid_y : PIDController
  pid_z : PIDController
  pid_yaw : PIDController

namespace PositionController

/-- `PositionController.__init__` with the default arguments used by
`SwarmWorld` (`pos_gains=(2.0, 0.01, 0.5)`, `yaw_gains=(2.0, 0.0, 0.3)`,
`max_velocity=2.0`, `max_yaw_rate=π`). -/
def init : PositionController :=
  { pid_x := PIDController.init 2.0 0.01 0.5 (-2.0) 2.0
    pid_y := PIDController.init 2.0 0.01 0.5 (-2.0) 2.0
    pid_z := PIDController.init 2.0 0.01 0.5 (-2.0) 2.0
    pid_yaw := PIDController.init 2.0 0.0 0.3 (-π) π }

/-- `PositionController.reset` (lines 100–105). -/
def reset (pc : PositionController) : PositionController :=
  { pid_x := pc.pid_x.reset, pid_y := pc.pid_y.reset,
    pid_z := pc.pid_z.reset, pid_yaw := pc.pid_yaw.reset }

/-- `PositionController.compute_control` (lines 113–147): per-axis errors
feed the four PIDs; the yaw error is wrapped with `arctan2(sin, cos)`. -/
def compute_control (pc : PositionController)
    (current_pos target_pos : Vec3) (current_yaw target_yaw dt : ℝ) :
    (Vec3 × ℝ) × PositionController :=
  let error_x := target_pos.x - current_pos.x
  let error_y := target_pos.y - current_pos.y
  let error_z := target_pos.z - current_pos.z
  let error_yaw := arctan2 (Real.sin (target_yaw - current_yaw))
                           (Real.cos (target_yaw - current_yaw))
  let rx := pc.pid_x.update error_x dt
  let ry := pc.pid_y.update error_y dt
  let rz := pc.pid_z.update error_z dt
  let ryaw := pc.pid_yaw.update error_yaw dt
  ((⟨rx.1, ry.1, rz.1⟩, ryaw.1),
   { pid_x := rx.2, pid_y := ry.2, pid_z := rz.2, pid_yaw := ryaw.2 })

end PositionController

/-! ### `controllers.py`: FormationPlanner and clamping helpers -/

namespace FormationPlanner

/-- `FormationPlanner.line` (lines 154–183); raises `ValueError` on an
axis other than `"x"`/`"y"`. -/
def line (center : Vec3) (num_drones : Nat) (spacing : ℝ) (axis : String) :
    Except String (List Vec3) :=
  let start_offset : ℝ := -((num_drones : ℝ) - 1) * spacing / 2
  if axis = "x" then
    .ok ((List.range num_drones).map fun (i : ℕ) =>
      { center with x := center.x + (start_offset + (i : ℝ) * spacing) })
  else if axis = "y" then
    .ok ((List.range num_drones).map fun (i : ℕ) =>
      { center with y := center.y + (start_offset + (i : ℝ) * spacing) })
  else
    .error "ValueError: invalid axis"

/-- `FormationPlanner.circle` (lines 186–207). -/
def circle (center : Vec3) (num_drones : Nat) (radius : ℝ) : List Vec3 :=
  (List.range num_drones).map fun (i : ℕ) =>
    let angle : ℝ := 2 * π * (i : ℝ) / (num_drones : ℝ)
    { center with
        x := center.x + radius * Real.cos angle
        y := center.y + radius * Real.sin angle }

/-- `FormationPlanner.grid` (lines 210–241). -/
def grid (center : Vec3) (num_drones : Nat) (spacing : ℝ) : List Vec3 :=
  let cols : Nat := ⌈Real.sqrt (num_drones : ℝ)⌉₊
  let rows : Nat := ⌈(num_drones : ℝ) / (cols : ℝ)⌉₊
  let start_x : ℝ := -((cols : ℝ) - 1) * spacing / 2
  let start_y : ℝ := -((rows : ℝ) - 1) * spacing / 2
  (List.range num_drones).map fun i =>
    { center with
        x := center.x + (start_x + ((i % cols : Nat) : ℝ) * spacing)
        y := center.y + (start_y + ((i / cols : Nat) : ℝ) * spacing) }

/-- `FormationPlanner.v_formation` (lines 244–272), default
`angle = π/6`. -/
def v_formation (center : Vec3) (num_drones : Nat) (spacing : ℝ)
    (angle : ℝ := π / 6) : List Vec3 :=
  center :: ((List.range' 1 (num_drones - 1)).map fun i =>
    let side : ℝ := if i % 2 = 0 then 1 else -1
    let offset_back : ℝ := (((i + 1) / 2 : Nat) : ℝ)
    { center with
        x := center.x - offset_back * spacing * Real.cos angle
        y := center.y + side * offset_back * spacing * Real.sin angle })

end FormationPlanner

/-- `clamp_position` (lines 275–293), default bounds
`(-10, 10)` for x/y and `(0.1, 5.0)` for z. -/
def clamp_position (pos : Vec3) : Vec3 :=
  ⟨clip pos.x (-10) 10, clip pos.y (-10) 10, clip pos.z 0.1 5.0⟩

open Classical in
/-- `clamp_velocity` (lines 296–310): rescale to magnitude `max_vel`
when the magnitude exceeds it. -/
def clamp_velocity (vel : Vec3) (max_vel : ℝ) : Vec3 :=
  let magnitude := vel.normV
  if magnitude > max_vel then Vec3.smul (max_vel / magnitude) vel else vel

/-! ### `swarm.py`: modes, commands, world state -/

/-- `DroneMode` enum (`swarm.py` lines 19–26). -/
inductive DroneMode
  | idle | takeoff | landing | hover | goto | velocity
deriving DecidableEq

/-- The `drone_ids` field of `DroneCommand`: either the string `"all"`
or an explicit list of Python ints. -/
inductive IdSel
  | all
  | ids (l : List ℤ)
deriving DecidableEq

/-- `DroneCommand` (`swarm.py` lines 29–34) is `cmd_type` / `drone_ids` /
`params`. Each constructor below corresponds to one `cmd_type` string
handled by `SwarmWorld._execute_command`, carrying exactly the `params`
entries that handler reads (entries read with `params.get(k, default)`
are resolved to the source default by the enqueuing caller). `goto` and
`velocity` read the drone id from `params["id"]`; their `drone_ids`
field is carried but never read by the handler. A `cmd_type` string
outside this set is silently ignored by `_execute_command` and is not
representable here (no claim concerns it). -/
inductive DroneCommand
  | takeoff (drone_ids : IdSel) (altitude : ℝ)
  | land (drone_ids : IdSel)
  | hover (drone_ids : IdSel)
  | goto (drone_ids : IdSel) (id : ℤ) (x y z yaw : ℝ)
  | velocity (drone_ids : IdSel) (id : ℤ) (vx vy vz yaw_rate : ℝ)
  | formation (drone_ids : IdSel) (pattern : String) (center : Vec3)
      (spacing radius : ℝ) (axis : String)
  | reset (drone_ids : IdSel)
  | spawn (drone_ids : IdSel) (num : Nat)

/-- The mutable state of `SwarmWorld` (lines 37–101) together with the
boundary of the external `VelocityAviary` physics engine: the `env_pos` /
`env_yaw` fields model the per-drone kinematic state the engine holds and
`_get_position` / `_get_yaw` read back (for `_get_yaw`, the yaw already
extracted from the engine's quaternion). Python dicts keyed by drone id
become total functions on `ℤ` (Python ints), with an `Option` codomain
where the dict may lack a key; dicts whose keys are always exactly
`0..N-1` (`drone_modes`, `position_controllers`, `batteries`,
`health_status`) are total functions whose values outside that range are
never read by the modelled code, matching Python where reading a missing
key would raise. GUI/mouse-handler fields are omitted (headless mode;
untouched by the control logic). -/
structure SwarmState where
  num_drones : Nat
  physics_hz : Nat
  control_hz : Nat
  command_queue : List DroneCommand
  drone_modes : ℤ → DroneMode
  target_positions : ℤ → Option Vec3
  target_yaws : ℤ → Option ℝ
  target_velocities : ℤ → Option Vec3
  target_yaw_rates : ℤ → Option ℝ
  hover_positions : ℤ → Option Vec3
  position_controllers : ℤ → PositionController
  batteries : ℤ → ℝ
  battery_drain_rate : ℝ
  health_status : ℤ → Bool
  sim_time : ℝ
  last_control_time : ℝ
  step_count : Nat
  env_pos : Nat → Vec3
  env_yaw : Nat → ℝ

namespace SwarmState

/-- `self.physics_dt = 1.0 / physics_hz`. -/
def physics_dt (s : SwarmState) : ℝ := 1 / (s.physics_hz : ℝ)

/-- `self.control_dt = 1.0 / control_hz`. -/
def control_dt (s : SwarmState) : ℝ := 1 / (s.control_hz : ℝ)

/-- The initial grid layout computed by `_init_environment`
(lines 104–117). -/
def initial_xyz (num_drones : Nat) (i : Nat) : Vec3 :=
  let grid_size : Nat := ⌈Real.sqrt (num_drones : ℝ)⌉₊
  let col := i % grid_size
  let row := i / grid_size
  ⟨((col : ℝ) - (grid_size : ℝ) / 2) * 0.5,
   ((row : ℝ) - (grid_size : ℝ) / 2) * 0.5, 0.1⟩

/-- `SwarmWorld._get_position` (lines 418–421): reads
`env._getDroneStateVector(i)[0:3]`, i.e. row `i` of the engine's numpy
position array of shape `(num_drones, 3)`. numpy indexing accepts
`-num_drones ≤ i < num_drones` (negative ids wrap from the end) and
raises `IndexError` otherwise. -/
def getPosition (s : SwarmState) (i : ℤ) : Except String Vec3 :=
  if 0 ≤ i ∧ i < (s.num_drones : ℤ) then .ok (s.env_pos i.toNat)
  else if -(s.num_drones : ℤ) ≤ i ∧ i < 0 then
    .ok (s.env_pos (i + (s.num_drones : ℤ)).toNat)
  else .error "IndexError"

/-- `SwarmWorld._get_yaw` (lines 428–436): same indexing discipline; the
quaternion-to-yaw extraction is folded into the `env_yaw` boundary. -/
def getYaw (s : SwarmState) (i : ℤ) : Except String ℝ :=
  if 0 ≤ i ∧ i < (s.num_drones : ℤ) then .ok (s.env_yaw i.toNat)
  else if -(s.num_drones : ℤ) ≤ i ∧ i < 0 then
    .ok (s.env_yaw (i + (s.num_drones : ℤ)).toNat)
  else .error "IndexError"

/-- `SwarmWorld._takeoff_drone` (lines 249–258): target is the current
position with `z := altitude`, clamped; mode becomes Takeoff. -/
def takeoffDrone (s : SwarmState) (drone_id : ℤ) (altitude : ℝ) :
    Except String SwarmState := do
  let current_pos ← s.getPosition drone_id
  let target_pos := { current_pos with z := altitude }
  return { s with
    target_positions :=
      Function.update s.target_positions drone_id (some (clamp_position target_pos))
    target_yaws := Function.update s.target_yaws drone_id (some 0)
    drone_modes := Function.update s.drone_modes drone_id .takeoff }

/-- `SwarmWorld._land_drone` (lines 260–269): target is the current
position with `z := 0.05` (not clamped); mode becomes Landing. -/
def landDrone (s : SwarmState) (drone_id : ℤ) : Except String SwarmState := do
  let current_pos ← s.getPosition drone_id
  let target_pos := { current_pos with z := (0.05 : ℝ) }
  return { s with
    target_positions := Function.update s.target_positions drone_id (some target_pos)
    target_yaws := Function.update s.target_yaws drone_id (some 0)
    drone_modes := Function.update s.drone_modes drone_id .landing }

/-- `SwarmWorld._hover_drone` (lines 271–280). -/
def hoverDrone (s : SwarmState) (drone_id : ℤ) : Except String SwarmState := do
  let current_pos ← s.getPosition drone_id
  let current_yaw ← s.getYaw drone_id
  return { s with
    hover_positions := Function.update s.hover_positions drone_id (some current_pos)
    target_positions := Function.update s.target_positions drone_id (some current_pos)
    target_yaws := Function.update s.target_yaws drone_id (some current_yaw)
    drone_modes := Function.update s.drone_modes drone_id .hover }

/-- `SwarmWorld._goto_position` (lines 282–288): never touches the
engine, so it cannot raise, whatever the id. -/
def gotoPosition (s : SwarmState) (drone_id : ℤ) (target : Vec3) (yaw : ℝ) :
    SwarmState :=
  let clamped_target := clamp_position target
  { s with
    target_positions := Function.update s.target_positions drone_id (some clamped_target)
    target_yaws := Function.update s.target_yaws drone_id (some yaw)
    drone_modes := Function.update s.drone_modes drone_id .goto }

/-- `SwarmWorld._set_velocity` (lines 290–296): never touches the engine,
so it cannot raise, whatever the id. -/
def setVelocity (s : SwarmState) (drone_id : ℤ) (vel : Vec3) (yaw_rate : ℝ) :
    SwarmState :=
  let clamped_vel := clamp_velocity vel 2.0
  { s with
    target_velocities := Function.update s.target_velocities drone_id (some clamped_vel)
    target_yaw_rates := Function.update s.target_yaw_rates drone_id (some (clip yaw_rate (-π) π))
    drone_modes := Function.update s.drone_modes drone_id .velocity }

/-- The assignment loop at the end of `_set_formation` (lines 320–324):
`for i, pos in enumerate(positions): if i < num_drones: ...`. -/
def assignFormation (s : SwarmState) (positions : List Vec3) : SwarmState :=
  positions.enum.foldl
    (fun s ip =>
      if ip.1 < s.num_drones then
        { s with
          target_positions :=
            Function.update s.target_positions (ip.1 : ℤ) (some (clamp_position ip.2))
          target_yaws := Function.update s.target_yaws (ip.1 : ℤ) (some 0)
          drone_modes := Function.update s.drone_modes (ip.1 : ℤ) .goto }
      else s)
    s

/-- `SwarmWorld._set_formation` (lines 298–326): an unknown pattern only
prints a message and returns. -/
def setFormation (s : SwarmState) (pattern : String) (center : Vec3)
    (spacing radius : ℝ) (axis : String) : Except String SwarmState :=
  if pattern = "line" then do
    let positions ← FormationPlanner.line center s.num_drones spacing axis
    return assignFormation s positions
  else if pattern = "circle" then
    .ok (assignFormation s (FormationPlanner.circle center s.num_drones radius))
  else if pattern = "grid" then
    .ok (assignFormation s (FormationPlanner.grid center s.num_drones spacing))
  else if pattern = "v" then
    .ok (assignFormation s (FormationPlanner.v_formation center s.num_drones spacing))
  else
    .ok s

/-- `SwarmWorld._reset_simulation` (lines 484–503): `env.reset()` puts
the engine back at the initial grid; per-drone state for ids `0..N-1` is
re-initialized (with a `PositionController.reset()`), the target dicts
are fully cleared, timing counters are zeroed. -/
def resetSimulation (s : SwarmState) : SwarmState :=
  { s with
    env_pos := initial_xyz s.num_drones
    env_yaw := fun _ => 0
    sim_time := 0
    last_control_time := 0
    step_count := 0
    drone_modes := fun i =>
      if 0 ≤ i ∧ i < (s.num_drones : ℤ) then .idle else s.drone_modes i
    batteries := fun i =>
      if 0 ≤ i ∧ i < (s.num_drones : ℤ) then 100 else s.batteries i
    health_status := fun i =>
      if 0 ≤ i ∧ i < (s.num_drones : ℤ) then true else s.health_status i
    position_controllers := fun i =>
      if 0 ≤ i ∧ i < (s.num_drones : ℤ) then (s.position_controllers i).reset
      else s.position_controllers i
    target_positions := fun _ => none
    target_yaws := fun _ => none
    target_velocities := fun _ => none
    target_yaw_rates := fun _ => none
    hover_positions := fun _ => none }

/-- `SwarmWorld._respawn` (lines 505–526): the whole fleet state is
rebuilt from scratch for `num` drones (fresh dicts with keys exactly
`0..num-1`; values outside that range are never read). -/
def respawn (s : SwarmState) (num : Nat) : SwarmState :=
  { num_drones := num
    physics_hz := s.physics_hz
    control_hz := s.control_hz
    command_queue := s.command_queue
    drone_modes := fun _ => .idle
    target_positions := fun _ => none
    target_yaws := fun _ => none
    target_velocities := fun _ => none
    target_yaw_rates := fun _ => none
    hover_positions := fun _ => none
    position_controllers := fun _ => PositionController.init
    batteries := fun _ => 100
    battery_drain_rate := s.battery_drain_rate
    health_status := fun _ => true
    sim_time := 0
    last_control_time := 0
    step_count := 0
    env_pos := initial_xyz num
    env_yaw := fun _ => 0 }

/-- Resolution of `cmd.drone_ids` at the top of `_execute_command`
(lines 208–212): `"all"` becomes `range(num_drones)` at dispatch time. -/
def resolveIds (s : SwarmState) (sel : IdSel) : List ℤ :=
  match sel with
  | .all => (List.range s.num_drones).map Int.ofNat
  | .ids l => l

/-- `SwarmWorld._execute_command` (lines 206–247). The per-id loops stop
at the first raising id (a Python `for` loop aborted by an exception),
with the earlier ids' mutations kept. -/
def executeCommand (s : SwarmState) (cmd : DroneCommand) :
    Except String SwarmState :=
  match cmd with
  | .takeoff sel altitude =>
      (resolveIds s sel).foldlM (fun s i => takeoffDrone s i altitude) s
  | .land sel => (resolveIds s sel).foldlM landDrone s
  | .hover sel => (resolveIds s sel).foldlM hoverDrone s
  | .goto _ id x y z yaw => .ok (gotoPosition s id ⟨x, y, z⟩ yaw)
  | .velocity _ id vx vy vz yaw_rate => .ok (setVelocity s id ⟨vx, vy, vz⟩ yaw_rate)
  | .formation _ pattern center spacing radius axis =>
      setFormation s pattern center spacing radius axis
  | .reset _ => .ok (resetSimulation s)
  | .spawn _ num => .ok (respawn s num)

/-- The drain loop of `_process_commands` (lines 197–204), after the
queue contents have been popped. -/
def processCommandsAux : List DroneCommand → SwarmState → Except String SwarmState
  | [], s => .ok s
  | c :: cs, s => (executeCommand s c).bind fun s' => processCommandsAux cs s'

/-- `SwarmWorld._process_commands` (lines 197–204): pop and execute until
`get_nowait` reports the queue empty. Since no command handler reads the
queue, popping everything up front is observationally equal to popping
one command per execution; an exception propagates out (remaining
commands are simply not executed). -/
def processCommands (s : SwarmState) : Except String SwarmState :=
  processCommandsAux s.command_queue { s with command_queue := [] }

open Classical in
/-- Body of the `_control_update` loop (lines 328–356) for one drone id
(Python iterates `range(num_drones)`). -/
def controlUpdate1 (s : SwarmState) (drone_id : Nat) : SwarmState :=
  let mode := s.drone_modes (drone_id : ℤ)
  if mode = .takeoff ∨ mode = .landing ∨ mode = .goto ∨ mode = .hover then
    match s.target_positions (drone_id : ℤ) with
    | none => s
    | some target_pos =>
        let current_pos := s.env_pos drone_id
        let dist := (target_pos - current_pos).normV
        if mode = .landing ∧ current_pos.z < 0.15 then
          { s with
            drone_modes := Function.update s.drone_modes (drone_id : ℤ) .idle
            target_velocities :=
              Function.update s.target_velocities (drone_id : ℤ) (some Vec3.zero) }
        else if mode = .takeoff ∧ dist < 0.1 then
          { s with
            drone_modes := Function.update s.drone_modes (drone_id : ℤ) .hover
            hover_positions :=
              Function.update s.hover_positions (drone_id : ℤ) (some current_pos) }
        else s
  else if mode = .velocity then s
  else
    { s with
      target_velocities :=
        Function.update s.target_velocities (drone_id : ℤ) (some Vec3.zero) }

/-- `SwarmWorld._control_update` (lines 328–356). -/
def controlUpdate (s : SwarmState) : SwarmState :=
  (List.range s.num_drones).foldl controlUpdate1 s

/-- One drone's action in the `VelocityAviary` format
`[vx_dir, vy_dir, vz_dir, speed_fraction]`. -/
structure DroneAction where
  dir : Vec3
  speed_frac : ℝ

/-- The `[0, 0, 0, 0]` action. -/
def zeroAction : DroneAction := ⟨Vec3.zero, 0⟩

open Classical in
/-- Body of the `_compute_actions` loop (lines 358–416) for one drone:
returns the action row together with the state mutations (the PID
updates inside `compute_control`, and the stored
velocity / yaw-rate commands). -/
def computeActions1 (s : SwarmState) (drone_id : Nat) : DroneAction × SwarmState :=
  let mode := s.drone_modes (drone_id : ℤ)
  if mode = .takeoff ∨ mode = .landing ∨ mode = .goto ∨ mode = .hover then
    match s.target_positions (drone_id : ℤ) with
    | none => (zeroAction, s)
    | some target_pos =>
        let current_pos := s.env_pos drone_id
        let current_yaw := s.env_yaw drone_id
        let target_yaw := (s.target_yaws (drone_id : ℤ)).getD 0
        let r := (s.position_controllers (drone_id : ℤ)).compute_control
                   current_pos target_pos current_yaw target_yaw s.control_dt
        let vel_cmd := r.1.1
        let yaw_rate_cmd := r.1.2
        let s' := { s with
          position_controllers :=
            Function.update s.position_controllers (drone_id : ℤ) r.2
          target_velocities :=
            Function.update s.target_velocities (drone_id : ℤ) (some vel_cmd)
          target_yaw_rates :=
            Function.update s.target_yaw_rates (drone_id : ℤ) (some yaw_rate_cmd) }
        let speed := vel_cmd.normV
        if speed > 0.01 then
          (⟨⟨vel_cmd.x / speed, vel_cmd.y / speed, vel_cmd.z / speed⟩,
            min (speed / 2.0) 1⟩, s')
        else (zeroAction, s')
  else if mode = .velocity then
    let vel := (s.target_velocities (drone_id : ℤ)).getD Vec3.zero
    let speed := vel.normV
    if speed > 0.01 then
      (⟨⟨vel.x / speed, vel.y / speed, vel.z / speed⟩, min (speed / 2.0) 1⟩, s)
    else (zeroAction, s)
  else (zeroAction, s)

/-- `SwarmWorld._compute_actions` (lines 358–416): the action rows in
drone-id order, plus the accumulated state mutations. -/
def computeActions (s : SwarmState) : List DroneAction × SwarmState :=
  (List.range s.num_drones).foldl
    (fun acc i =>
      let r := computeActions1 acc.2 i
      (acc.1 ++ [r.1], r.2))
    ([], s)

open Classical in
/-- Body of the `_update_batteries` loop (lines 438–443) for one drone. -/
def updateBatteries1 (s : SwarmState) (drone_id : Nat) : SwarmState :=
  if s.drone_modes (drone_id : ℤ) ≠ .idle then
    { s with
      batteries := Function.update s.batteries (drone_id : ℤ)
        (max 0 (s.batteries (drone_id : ℤ) - s.battery_drain_rate / 60)) }
  else s

/-- `SwarmWorld._update_batteries` (lines 438–443). -/
def updateBatteries (s : SwarmState) : SwarmState :=
  (List.range s.num_drones).foldl updateBatteries1 s

open Classical in
/-- Body of the `_check_health` loop (lines 445–455) for one drone. -/
def checkHealth1 (s : SwarmState) (drone_id : Nat) : SwarmState :=
  let pos := s.env_pos drone_id
  { s with
    health_status := Function.update s.health_status (drone_id : ℤ)
      (if |pos.x| > 15 ∨ |pos.y| > 15 ∨ pos.z < 0 ∨ pos.z > 10 ∨
          s.batteries (drone_id : ℤ) ≤ 0
       then false else true) }

/-- `SwarmWorld._check_health` (lines 445–455). -/
def checkHealth (s : SwarmState) : SwarmState :=
  (List.range s.num_drones).foldl checkHealth1 s

open Classical in
/-- `SwarmWorld.step` (lines 149–195) for headless operation (no mouse
handler). The external `env.step(actions)` call is modelled by an oracle
giving the kinematics the engine reports for this tick; the engine's
`dones` flags only feed `step`'s continue/stop boolean return, which no
claim concerns, so only the new state is returned. -/
def step (s : SwarmState) (newPos : Nat → Vec3) (newYaw : Nat → ℝ) :
    Except String SwarmState := do
  let s ← processCommands s
  let s :=
    if s.sim_time - s.last_control_time ≥ s.control_dt - 1e-6 then
      { controlUpdate s with last_control_time := s.sim_time }
    else s
  let s := (computeActions s).2
  let s := { s with env_pos := newPos, env_yaw := newYaw }
  let s := { s with sim_time := s.sim_time + s.physics_dt
                    step_count := s.step_count + 1 }
  let s := if s.step_count % s.physics_hz = 0 then updateBatteries s else s
  return checkHealth s

/-- Iterated `step` with a per-tick kinematics oracle, as the
`simulation_loop` driver calls it. -/
def runSteps (s : SwarmState) (posSeq : Nat → Nat → Vec3)
    (yawSeq : Nat → Nat → ℝ) : Nat → Except String SwarmState
  | 0 => .ok s
  | n + 1 => (runSteps s posSeq yawSeq n).bind fun s' => step s' (posSeq n) (yawSeq n)

end SwarmState

/-- The `SwarmWorld.__init__` state (lines 43–101) as built for headless
runs (`physics_hz=240`, `control_hz=60`, as `main.py` passes them):
empty queue, all drones Idle with full battery and healthy, fresh
controllers, empty target dicts, timing zeroed, engine at the initial
grid with zero yaw. -/
def mkWorld (num_drones : Nat) : SwarmState :=
  { num_drones := num_drones
    physics_hz := 240
    control_hz := 60
    command_queue := []
    drone_modes := fun _ => .idle
    target_positions := fun _ => none
    target_yaws := fun _ => none
    target_velocities := fun _ => none
    target_yaw_rates := fun _ => none
    hover_positions := fun _ => none
    position_controllers := fun _ => PositionController.init
    batteries := fun _ => 100
    battery_drain_rate := 0.5
    health_status := fun _ => true
    sim_time := 0
    last_control_time := 0
    step_count := 0
    env_pos := SwarmState.initial_xyz num_drones
    env_yaw := fun _ => 0 }

/-- Scenario state for the Takeoff-arrival claim: one drone in Takeoff
mode toward target `(0,0,1)`, currently at `(0,0,0.95)` (within the
0.1 m arrival radius), fresh controllers. -/
def takeoffArrivalState : SwarmState :=
  { mkWorld 1 with
    drone_modes := fun _ => .takeoff
    target_positions := fun _ => some ⟨0, 0, 1⟩
    target_yaws := fun _ => some 0
    env_pos := fun _ => ⟨0, 0, 0.95⟩ }

/-- Scenario state for the Landing-arrival claim: one drone in Landing
mode at altitude `0.1 < 0.15`, whose z-axis PID carries a nonzero
integral accumulated during the descent. -/
def landingArrivalState : SwarmState :=
  { mkWorld 1 with
    drone_modes := fun _ => .landing
    target_positions := fun _ => some ⟨0, 0, 0.05⟩
    position_controllers := fun _ =>
      { PositionController.init with
        pid_z := { PIDController.init 2.0 0.01 0.5 (-2.0) 2.0 with integral := 1 } }
    env_pos := fun _ => ⟨0, 0, 0.1⟩ }

/-- Scenario state for the invalid-id claim: a one-drone world with a
queued takeoff command addressing the nonexistent drone id 1. -/
def invalidIdState : SwarmState :=
  { mkWorld 1 with command_queue := [.takeoff (.ids [1]) 1.0] }

/-- Scenario state for the battery claim: a two-drone world in which
drone 0 is in Velocity mode (never auto-transitions) and drone 1 is
Idle. -/
def enduranceState : SwarmState :=
  { mkWorld 2 with
    drone_modes := fun i => if i = 0 then .velocity else .idle }

/-- Scenario state for the command-ordering claim: `takeoff(all, 1.0)`
then `land(all)` enqueued before any step. -/
def queuedCommandsState : SwarmState :=
  { mkWorld 2 with command_queue := [.takeoff .all 1.0, .land .all] }

end

/-! ## Helper lemmas -/

theorem clip_eq_self_iff (x lo hi : ℝ) (h : lo ≤ hi) :
    clip x lo hi = x ↔ lo ≤ x ∧ x ≤ hi := by
  constructor
  · intro hc
    refine ⟨?_, ?_⟩
    · calc lo = min lo hi := (min_eq_left h).symm
        _ ≤ min (max x lo) hi := min_le_min (le_max_right x lo) le_rfl
        _ = x := hc
    · rw [← hc]
      exact min_le_right _ _
  · rintro ⟨h1, h2⟩
    unfold clip
    rw [max_eq_left h1, min_eq_left h2]

theorem clip_ne_self_iff (x lo hi : ℝ) (h : lo ≤ hi) :
    clip x lo hi ≠ x ↔ x < lo ∨ hi < x := by
  rw [Ne, clip_eq_self_iff x lo hi h, not_and_or, not_le, not_le]

theorem Vec3.normV_nonneg (v : Vec3) : 0 ≤ v.normV := Real.sqrt_nonneg _

theorem Vec3.normV_smul (c : ℝ) (v : Vec3) :
    (Vec3.smul c v).normV = |c| * v.normV := by
  unfold Vec3.normV Vec3.smul
  have h : (c * v.x) ^ 2 + (c * v.y) ^ 2 + (c * v.z) ^ 2 =
      c ^ 2 * (v.x ^ 2 + v.y ^ 2 + v.z ^ 2) := by ring
  rw [h, Real.sqrt_mul (sq_nonneg c), Real.sqrt_sq_eq_abs]

theorem Vec3.smul_one (v : Vec3) : Vec3.smul 1 v = v := by
  unfold Vec3.smul
  ext <;> simp

/-! ## Claim theorems: controllers -/

open Classical in
/-- Claim C4: `PIDController.update(error, dt)` accumulates
`integral += error*dt` before any clamping, uses
`derivative = (error - prev_error)/dt` for `dt > 0` and `0` otherwise,
returns `kp*error + ki*integral + kd*derivative` clamped to
`[out_lo, out_hi]`, backs the integral off by `error*dt*0.5` exactly when
the clamp changed the output (equivalently, when the raw sum lies outside
the limits), and stores the raw error as `prev_error` on every call. -/
theorem pid_update_spec (c : PIDController) (error dt raw : ℝ)
    (hlim : c.out_lo ≤ c.out_hi)
    (hraw : raw = c.kp * error + c.ki * (c.integral + error * dt) +
        c.kd * (if dt > 0 then (error - c.prev_error) / dt else 0)) :
    (c.update error dt).1 = clip raw c.out_lo c.out_hi ∧
    (c.update error dt).2.prev_error = error ∧
    ((c.update error dt).1 ≠ raw →
        (c.update error dt).2.integral = c.integral + error * dt - error * dt * 0.5) ∧
    ((c.update error dt).1 = raw →
        (c.update error dt).2.integral = c.integral + error * dt) ∧
    ((c.update error dt).1 ≠ raw ↔ raw < c.out_lo ∨ c.out_hi < raw) := by
  subst hraw
  refine ⟨rfl, rfl, ?_, ?_, clip_ne_self_iff _ _ _ hlim⟩
  · intro h
    simp only [PIDController.update] at h ⊢
    rw [if_pos h]
  · intro h
    simp only [PIDController.update] at h ⊢
    rw [if_neg (fun hn => hn h)]

/-- Witness for `pid_update_spec` at a concrete saturating input:
fresh position-axis PID (`kp=2, ki=0.01, kd=0.5`, limits `±2`),
`error = 10`, `dt = 1`, raw sum `25.1`. -/
theorem pid_update_spec_witness :
    ((PIDController.init 2 0.01 0.5 (-2) 2).out_lo ≤
        (PIDController.init 2 0.01 0.5 (-2) 2).out_hi) ∧
    (((PIDController.init 2 0.01 0.5 (-2) 2).update 10 1).1 =
        clip 25.1 (-2) 2 ∧
     ((PIDController.init 2 0.01 0.5 (-2) 2).update 10 1).2.prev_error = 10 ∧
     ((((PIDController.init 2 0.01 0.5 (-2) 2).update 10 1).1 ≠ 25.1 →
        ((PIDController.init 2 0.01 0.5 (-2) 2).update 10 1).2.integral =
          0 + 10 * 1 - 10 * 1 * 0.5)) ∧
     ((((PIDController.init 2 0.01 0.5 (-2) 2).update 10 1).1 = 25.1 →
        ((PIDController.init 2 0.01 0.5 (-2) 2).update 10 1).2.integral =
          0 + 10 * 1)) ∧
     (((PIDController.init 2 0.01 0.5 (-2) 2).update 10 1).1 ≠ 25.1 ↔
        (25.1 : ℝ) < -2 ∨ (2 : ℝ) < 25.1)) :=
  ⟨by norm_num [PIDController.init],
   pid_update_spec (PIDController.init 2 0.01 0.5 (-2) 2) 10 1 25.1
     (by norm_num [PIDController.init])
     (by norm_num [PIDController.init])⟩

/-- Claim C5: in `compute_control` the yaw PID is fed exactly
`atan2(sin(target_yaw - current_yaw), cos(target_yaw - current_yaw))`,
a value always in `(-π, π]`; at `target_yaw = -3`, `current_yaw = 3` that
error is exactly `2π - 6 ≈ 0.28 rad` (in particular positive and small),
not `≈ -6 rad`. -/
theorem yaw_error_normalization :
    (∀ (pc : PositionController) (cp tp : Vec3) (cy ty dt : ℝ),
        (pc.compute_control cp tp cy ty dt).1.2 =
          (pc.pid_yaw.update
            (arctan2 (Real.sin (ty - cy)) (Real.cos (ty - cy))) dt).1) ∧
    (∀ ty cy : ℝ,
        -π < arctan2 (Real.sin (ty - cy)) (Real.cos (ty - cy)) ∧
        arctan2 (Real.sin (ty - cy)) (Real.cos (ty - cy)) ≤ π) ∧
    arctan2 (Real.sin ((-3 : ℝ) - 3)) (Real.cos ((-3 : ℝ) - 3)) = 2 * π - 6 ∧
    0.28 < 2 * π - 6 ∧ 2 * π - 6 < 0.29 := by
  refine ⟨fun pc cp tp cy ty dt => rfl,
          fun ty cy => ⟨Complex.neg_pi_lt_arg _, Complex.arg_le_pi _⟩, ?_, ?_, ?_⟩
  · have hc : Real.cos ((-3 : ℝ) - 3) = Real.cos (2 * π - 6) := by
      rw [show ((-3 : ℝ) - 3) = (2 * π - 6) - 2 * π by ring, Real.cos_sub_two_pi]
    have hs : Real.sin ((-3 : ℝ) - 3) = Real.sin (2 * π - 6) := by
      rw [show ((-3 : ℝ) - 3) = (2 * π - 6) - 2 * π by ring, Real.sin_sub_two_pi]
    unfold arctan2
    rw [hc, hs, Complex.ofReal_cos, Complex.ofReal_sin]
    refine Complex.arg_cos_add_sin_mul_I ⟨?_, ?_⟩
    · have := Real.pi_gt_three
      linarith
    · have := Real.pi_le_four
      linarith
  · have := Real.pi_gt_d6
    linarith
  · have := Real.pi_lt_d6
    linarith

/-- Claim C10: `clamp_velocity` leaves a velocity of magnitude at most
`max_vel` unchanged; otherwise it returns `(max_vel/‖v‖) • v`, whose
magnitude is exactly `max_vel`. Either way the result is a positive
scalar multiple of `v` (direction preserved), and the function is
idempotent. -/
theorem clamp_velocity_spec (v : Vec3) (m : ℝ) (hm : 0 < m) :
    (v.normV ≤ m → clamp_velocity v m = v) ∧
    (m < v.normV →
        clamp_velocity v m = Vec3.smul (m / v.normV) v ∧
        (clamp_velocity v m).normV = m) ∧
    (∃ c : ℝ, 0 < c ∧ clamp_velocity v m = Vec3.smul c v) ∧
    clamp_velocity (clamp_velocity v m) m = clamp_velocity v m := by
  have hid : ∀ w : Vec3, ¬w.normV > m → clamp_velocity w m = w := by
    intro w hw
    simp only [clamp_velocity]
    rw [if_neg hw]
  have key : ∀ w : Vec3, m < w.normV →
      clamp_velocity w m = Vec3.smul (m / w.normV) w ∧
      (clamp_velocity w m).normV = m := by
    intro w hw
    have h0 : 0 < w.normV := lt_trans hm hw
    have hcl : clamp_velocity w m = Vec3.smul (m / w.normV) w := by
      simp only [clamp_velocity]
      rw [if_pos hw]
    refine ⟨hcl, ?_⟩
    rw [hcl, Vec3.normV_smul, abs_of_pos (div_pos hm h0),
        div_mul_cancel₀ _ (ne_of_gt h0)]
  refine ⟨fun hle => hid v (not_lt.mpr hle), key v, ?_, ?_⟩
  · by_cases h : m < v.normV
    · exact ⟨m / v.normV, div_pos hm (lt_trans hm h), (key v h).1⟩
    · refine ⟨1, one_pos, ?_⟩
      rw [hid v h, Vec3.smul_one]
  · by_cases h : m < v.normV
    · apply hid
      rw [(key v h).2]
      exact lt_irrefl m
    · rw [hid v h]
      exact hid v h

/-- Claim C9: `FormationPlanner.circle` returns exactly `n` positions,
position `i` being the center offset by `radius*cos(2πi/n)` in x and
`radius*sin(2πi/n)` in y at the center's z; concretely, for center
`(0,0,2)`, `n = 4`, `radius = 2`, the four points are
`(2,0,2), (0,2,2), (-2,0,2), (0,-2,2)` — each at XY-distance 2 from the
center and with consecutive offset vectors orthogonal (90° apart). -/
theorem formation_circle_spec (center : Vec3) (radius : ℝ) (n i : Nat)
    (hn : 1 ≤ n) (hi : i < n) :
    (FormationPlanner.circle center n radius).length = n ∧
    (FormationPlanner.circle center n radius)[i]? =
      some ⟨center.x + radius * Real.cos (2 * π * (i : ℝ) / (n : ℝ)),
            center.y + radius * Real.sin (2 * π * (i : ℝ) / (n : ℝ)), center.z⟩ ∧
    FormationPlanner.circle ⟨0, 0, 2⟩ 4 2 =
      [⟨2, 0, 2⟩, ⟨0, 2, 2⟩, ⟨-2, 0, 2⟩, ⟨0, -2, 2⟩] ∧
    (∀ p ∈ FormationPlanner.circle ⟨0, 0, 2⟩ 4 2,
        Real.sqrt (p.x ^ 2 + p.y ^ 2) = 2 ∧ p.z = 2) ∧
    List.Chain' (fun p q : Vec3 => p.x * q.x + p.y * q.y = 0)
      (FormationPlanner.circle ⟨0, 0, 2⟩ 4 2) := by
  have c0 : Real.cos (2 * π * 0 / 4) = 1 := by norm_num
  have s0 : Real.sin (2 * π * 0 / 4) = 0 := by norm_num
  have c1 : Real.cos (2 * π * 1 / 4) = 0 := by
    rw [show (2 * π * 1 / 4 : ℝ) = π / 2 by ring, Real.cos_pi_div_two]
  have s1 : Real.sin (2 * π * 1 / 4) = 1 := by
    rw [show (2 * π * 1 / 4 : ℝ) = π / 2 by ring, Real.sin_pi_div_two]
  have c1' : Real.cos (2 * π / 4) = 0 := by
    rw [show (2 * π / 4 : ℝ) = π / 2 by ring, Real.cos_pi_div_two]
  have s1' : Real.sin (2 * π / 4) = 1 := by
    rw [show (2 * π / 4 : ℝ) = π / 2 by ring, Real.sin_pi_div_two]
  have c2 : Real.cos (2 * π * 2 / 4) = -1 := by
    rw [show (2 * π * 2 / 4 : ℝ) = π by ring, Real.cos_pi]
  have s2 : Real.sin (2 * π * 2 / 4) = 0 := by
    rw [show (2 * π * 2 / 4 : ℝ) = π by ring, Real.sin_pi]
  have c3 : Real.cos (2 * π * 3 / 4) = 0 := by
    rw [show (2 * π * 3 / 4 : ℝ) = π + π / 2 by ring, Real.cos_add]
    norm_num
  have s3 : Real.sin (2 * π * 3 / 4) = -1 := by
    rw [show (2 * π * 3 / 4 : ℝ) = π + π / 2 by ring, Real.sin_add]
    norm_num
  have hlist : FormationPlanner.circle ⟨0, 0, 2⟩ 4 2 =
      [⟨2, 0, 2⟩, ⟨0, 2, 2⟩, ⟨-2, 0, 2⟩, ⟨0, -2, 2⟩] := by
    simp only [FormationPlanner.circle, List.range_succ, List.range_zero,
      List.map_append, List.map_cons, List.map_nil, List.nil_append,
      List.cons_append, Nat.cast_ofNat, Nat.cast_zero, Nat.cast_one]
    norm_num [c0, s0, c1, s1, c1', s1', c2, s2, c3, s3]
  have s4 : Real.sqrt 4 = 2 := by
    rw [show (4 : ℝ) = 2 ^ 2 by norm_num, Real.sqrt_sq (by norm_num : (0 : ℝ) ≤ 2)]
  refine ⟨?_, ?_, hlist, ?_, ?_⟩
  · simp only [FormationPlanner.circle, List.length_map, List.length_range]
  · simp only [FormationPlanner.circle, List.getElem?_map, List.getElem?_range hi,
      Option.map_some']
  · intro p hp
    rw [hlist] at hp
    simp only [List.mem_cons, List.not_mem_nil, or_false] at hp
    rcases hp with rfl | rfl | rfl | rfl <;>
      refine ⟨?_, rfl⟩ <;> · norm_num; exact s4
  · rw [hlist]
    simp only [List.chain'_cons, List.chain'_singleton, and_true]
    norm_num

/-- Witness for `formation_circle_spec` at center `(0,0,2)`, radius 2,
`n = 4`, `i = 1`. -/
theorem formation_circle_spec_witness :
    1 ≤ 4 ∧ 1 < 4 ∧
    ((FormationPlanner.circle ⟨0, 0, 2⟩ 4 2).length = 4 ∧
     (FormationPlanner.circle ⟨0, 0, 2⟩ 4 2)[1]? =
       some ⟨0 + 2 * Real.cos (2 * π * ((1 : ℕ) : ℝ) / ((4 : ℕ) : ℝ)),
             0 + 2 * Real.sin (2 * π * ((1 : ℕ) : ℝ) / ((4 : ℕ) : ℝ)), 2⟩ ∧
     FormationPlanner.circle ⟨0, 0, 2⟩ 4 2 =
       [⟨2, 0, 2⟩, ⟨0, 2, 2⟩, ⟨-2, 0, 2⟩, ⟨0, -2, 2⟩] ∧
     (∀ p ∈ FormationPlanner.circle ⟨0, 0, 2⟩ 4 2,
         Real.sqrt (p.x ^ 2 + p.y ^ 2) = 2 ∧ p.z = 2) ∧
     List.Chain' (fun p q : Vec3 => p.x * q.x + p.y * q.y = 0)
       (FormationPlanner.circle ⟨0, 0, 2⟩ 4 2)) :=
  ⟨by norm_num, by norm_num,
   formation_circle_spec ⟨0, 0, 2⟩ 2 4 1 (by norm_num) (by norm_num)⟩

/-- Witness for `clamp_velocity_spec` at `v = (3, 4, 0)`, `m = 2`. -/
theorem clamp_velocity_spec_witness :
    (0 : ℝ) < 2 ∧
    (((Vec3.mk 3 4 0).normV ≤ 2 → clamp_velocity ⟨3, 4, 0⟩ 2 = ⟨3, 4, 0⟩) ∧
     ((2 : ℝ) < (Vec3.mk 3 4 0).normV →
        clamp_velocity ⟨3, 4, 0⟩ 2 = Vec3.smul (2 / (Vec3.mk 3 4 0).normV) ⟨3, 4, 0⟩ ∧
        (clamp_velocity ⟨3, 4, 0⟩ 2).normV = 2) ∧
     (∃ c : ℝ, 0 < c ∧ clamp_velocity ⟨3, 4, 0⟩ 2 = Vec3.smul c ⟨3, 4, 0⟩) ∧
     clamp_velocity (clamp_velocity ⟨3, 4, 0⟩ 2) 2 = clamp_velocity ⟨3, 4, 0⟩ 2) :=
  ⟨by norm_num, clamp_velocity_spec ⟨3, 4, 0⟩ 2 (by norm_num)⟩

/-! ## Support lemmas about the swarm loop bodies -/

namespace SwarmState

theorem checkHealth1_fields (s : SwarmState) (k : Nat) :
    (checkHealth1 s k).env_pos = s.env_pos ∧
    (checkHealth1 s k).batteries = s.batteries ∧
    (checkHealth1 s k).drone_modes = s.drone_modes ∧
    (checkHealth1 s k).num_drones = s.num_drones ∧
    (checkHealth1 s k).physics_hz = s.physics_hz ∧
    (checkHealth1 s k).command_queue = s.command_queue ∧
    (checkHealth1 s k).battery_drain_rate = s.battery_drain_rate ∧
    (checkHealth1 s k).step_count = s.step_count :=
  ⟨rfl, rfl, rfl, rfl, rfl, rfl, rfl, rfl⟩

theorem foldl_checkHealth1_fields (l : List Nat) (s : SwarmState) :
    (l.foldl checkHealth1 s).batteries = s.batteries ∧
    (l.foldl checkHealth1 s).drone_modes = s.drone_modes ∧
    (l.foldl checkHealth1 s).num_drones = s.num_drones ∧
    (l.foldl checkHealth1 s).physics_hz = s.physics_hz ∧
    (l.foldl checkHealth1 s).command_queue = s.command_queue ∧
    (l.foldl checkHealth1 s).battery_drain_rate = s.battery_drain_rate ∧
    (l.foldl checkHealth1 s).step_count = s.step_count := by
  induction l generalizing s with
  | nil => exact ⟨rfl, rfl, rfl, rfl, rfl, rfl, rfl⟩
  | cons k l ih =>
    simp only [List.foldl_cons]
    obtain ⟨g1, g2, g3, g4, g5, g6, g7⟩ := ih (checkHealth1 s k)
    exact ⟨g1, g2, g3, g4, g5, g6, g7⟩

theorem updateBatteries1_fields (s : SwarmState) (k : Nat) :
    (updateBatteries1 s k).drone_modes = s.drone_modes ∧
    (updateBatteries1 s k).num_drones = s.num_drones ∧
    (updateBatteries1 s k).physics_hz = s.physics_hz ∧
    (updateBatteries1 s k).command_queue = s.command_queue ∧
    (updateBatteries1 s k).battery_drain_rate = s.battery_drain_rate ∧
    (updateBatteries1 s k).step_count = s.step_count := by
  unfold updateBatteries1
  split <;> exact ⟨rfl, rfl, rfl, rfl, rfl, rfl⟩

theorem foldl_updateBatteries1_fields (l : List Nat) (s : SwarmState) :
    (l.foldl updateBatteries1 s).drone_modes = s.drone_modes ∧
    (l.foldl updateBatteries1 s).num_drones = s.num_drones ∧
    (l.foldl updateBatteries1 s).physics_hz = s.physics_hz ∧
    (l.foldl updateBatteries1 s).command_queue = s.command_queue ∧
    (l.foldl updateBatteries1 s).battery_drain_rate = s.battery_drain_rate ∧
    (l.foldl updateBatteries1 s).step_count = s.step_count := by
  induction l generalizing s with
  | nil => exact ⟨rfl, rfl, rfl, rfl, rfl, rfl⟩
  | cons k l ih =>
    simp only [List.foldl_cons]
    obtain ⟨h1, h2, h3, h4, h5, h6⟩ := updateBatteries1_fields s k
    obtain ⟨g1, g2, g3, g4, g5, g6⟩ := ih (updateBatteries1 s k)
    exact ⟨g1.trans h1, g2.trans h2, g3.trans h3, g4.trans h4, g5.trans h5, g6.trans h6⟩

open Classical in
theorem foldl_updateBatteries1_at (l : List Nat) (s : SwarmState) (i : Nat)
    (hnd : l.Nodup) :
    (l.foldl updateBatteries1 s).batteries (i : ℤ) =
      if i ∈ l then
        (if s.drone_modes (i : ℤ) ≠ .idle
         then max 0 (s.batteries (i : ℤ) - s.battery_drain_rate / 60)
         else s.batteries (i : ℤ))
      else s.batteries (i : ℤ) := by
  induction l generalizing s with
  | nil => simp
  | cons k l ih =>
    obtain ⟨hknotin, hnd'⟩ := List.nodup_cons.mp hnd
    simp only [List.foldl_cons]
    rw [ih _ hnd']
    by_cases hik : i = k
    · subst hik
      rw [if_neg hknotin, if_pos (List.mem_cons_self i l)]
      unfold updateBatteries1
      split
      · simp [Function.update_same]
      · rfl
    · have hmodes : (updateBatteries1 s k).drone_modes = s.drone_modes :=
        (updateBatteries1_fields s k).1
      have hrate : (updateBatteries1 s k).battery_drain_rate = s.battery_drain_rate :=
        (updateBatteries1_fields s k).2.2.2.2.1
      have hbat : (updateBatteries1 s k).batteries (i : ℤ) = s.batteries (i : ℤ) := by
        unfold updateBatteries1
        split
        · exact Function.update_noteq (by exact_mod_cast hik) _ _
        · rfl
      rw [hmodes, hrate, hbat]
      by_cases hmem : i ∈ l
      · rw [if_pos hmem, if_pos (List.mem_cons_of_mem k hmem)]
      · rw [if_neg hmem, if_neg (by simp [hik, hmem])]

theorem controlUpdate1_fields (s : SwarmState) (k : Nat) :
    (controlUpdate1 s k).batteries = s.batteries ∧
    (controlUpdate1 s k).num_drones = s.num_drones ∧
    (controlUpdate1 s k).physics_hz = s.physics_hz ∧
    (controlUpdate1 s k).control_hz = s.control_hz ∧
    (controlUpdate1 s k).command_queue = s.command_queue ∧
    (controlUpdate1 s k).battery_drain_rate = s.battery_drain_rate ∧
    (controlUpdate1 s k).step_count = s.step_count ∧
    (controlUpdate1 s k).env_pos = s.env_pos ∧
    (controlUpdate1 s k).position_controllers = s.position_controllers ∧
    (controlUpdate1 s k).target_positions = s.target_positions ∧
    (controlUpdate1 s k).target_yaws = s.target_yaws ∧
    (controlUpdate1 s k).env_yaw = s.env_yaw := by
  simp only [controlUpdate1]
  repeat' split
  all_goals exact ⟨rfl, rfl, rfl, rfl, rfl, rfl, rfl, rfl, rfl, rfl, rfl, rfl⟩

theorem foldl_controlUpdate1_fields (l : List Nat) (s : SwarmState) :
    (l.foldl controlUpdate1 s).batteries = s.batteries ∧
    (l.foldl controlUpdate1 s).num_drones = s.num_drones ∧
    (l.foldl controlUpdate1 s).physics_hz = s.physics_hz ∧
    (l.foldl controlUpdate1 s).control_hz = s.control_hz ∧
    (l.foldl controlUpdate1 s).command_queue = s.command_queue ∧
    (l.foldl controlUpdate1 s).battery_drain_rate = s.battery_drain_rate ∧
    (l.foldl controlUpdate1 s).step_count = s.step_count ∧
    (l.foldl controlUpdate1 s).env_pos = s.env_pos ∧
    (l.foldl controlUpdate1 s).position_controllers = s.position_controllers ∧
    (l.foldl controlUpdate1 s).target_positions = s.target_positions ∧
    (l.foldl controlUpdate1 s).target_yaws = s.target_yaws ∧
    (l.foldl controlUpdate1 s).env_yaw = s.env_yaw := by
  induction l generalizing s with
  | nil => exact ⟨rfl, rfl, rfl, rfl, rfl, rfl, rfl, rfl, rfl, rfl, rfl, rfl⟩
  | cons k l ih =>
    simp only [List.foldl_cons]
    obtain ⟨h1, h2, h3, h4, h5, h6, h7, h8, h9, h10, h11, h12⟩ := controlUpdate1_fields s k
    obtain ⟨g1, g2, g3, g4, g5, g6, g7, g8, g9, g10, g11, g12⟩ := ih (controlUpdate1 s k)
    exact ⟨g1.trans h1, g2.trans h2, g3.trans h3, g4.trans h4, g5.trans h5,
      g6.trans h6, g7.trans h7, g8.trans h8, g9.trans h9, g10.trans h10,
      g11.trans h11, g12.trans h12⟩

theorem controlUpdate1_drone_modes_ne (s : SwarmState) (k : Nat) (j : ℤ)
    (hkj : (k : ℤ) ≠ j) :
    (controlUpdate1 s k).drone_modes j = s.drone_modes j := by
  simp only [controlUpdate1]
  repeat' split
  all_goals simp [Function.update_noteq (Ne.symm hkj)]

theorem controlUpdate1_drone_modes_stable (s : SwarmState) (k : Nat) (j : ℤ)
    (h1 : s.drone_modes j ≠ .landing) (h2 : s.drone_modes j ≠ .takeoff) :
    (controlUpdate1 s k).drone_modes j = s.drone_modes j := by
  by_cases hkj : (k : ℤ) = j
  · simp only [controlUpdate1]
    split
    · split
      · rfl
      · split
        · rename_i hcond
          rw [hkj] at hcond
          exact absurd hcond.1 h1
        · split
          · rename_i hcond
            rw [hkj] at hcond
            exact absurd hcond.1 h2
          · rfl
    · split
      · rfl
      · rfl
  · exact controlUpdate1_drone_modes_ne s k j hkj

theorem foldl_controlUpdate1_modes_stable (l : List Nat) (s : SwarmState) (j : ℤ)
    (h1 : s.drone_modes j ≠ .landing) (h2 : s.drone_modes j ≠ .takeoff) :
    (l.foldl controlUpdate1 s).drone_modes j = s.drone_modes j := by
  induction l generalizing s with
  | nil => rfl
  | cons k l ih =>
    simp only [List.foldl_cons]
    have hstep := controlUpdate1_drone_modes_stable s k j h1 h2
    rw [ih (controlUpdate1 s k) (by rw [hstep]; exact h1) (by rw [hstep]; exact h2),
      hstep]

theorem computeActions1_fields (s : SwarmState) (k : Nat) :
    ((computeActions1 s k).2.drone_modes = s.drone_modes ∧
     (computeActions1 s k).2.batteries = s.batteries ∧
     (computeActions1 s k).2.num_drones = s.num_drones ∧
     (computeActions1 s k).2.physics_hz = s.physics_hz ∧
     (computeActions1 s k).2.control_hz = s.control_hz ∧
     (computeActions1 s k).2.command_queue = s.command_queue ∧
     (computeActions1 s k).2.battery_drain_rate = s.battery_drain_rate ∧
     (computeActions1 s k).2.step_count = s.step_count ∧
     (computeActions1 s k).2.env_pos = s.env_pos ∧
     (computeActions1 s k).2.target_positions = s.target_positions ∧
     (computeActions1 s k).2.sim_time = s.sim_time ∧
     (computeActions1 s k).2.last_control_time = s.last_control_time ∧
     (computeActions1 s k).2.health_status = s.health_status) := by
  simp only [computeActions1]
  repeat' split
  all_goals
    exact ⟨rfl, rfl, rfl, rfl, rfl, rfl, rfl, rfl, rfl, rfl, rfl, rfl, rfl⟩

theorem computeActions_snd (s : SwarmState) :
    (computeActions s).2 =
      (List.range s.num_drones).foldl (fun s i => (computeActions1 s i).2) s := by
  unfold computeActions
  suffices h : ∀ (l : List Nat) (acc : List DroneAction × SwarmState),
      (l.foldl (fun acc i =>
        ((acc.1 ++ [(computeActions1 acc.2 i).1]), (computeActions1 acc.2 i).2)) acc).2 =
        l.foldl (fun s i => (computeActions1 s i).2) acc.2 by
    exact h (List.range s.num_drones) ([], s)
  intro l
  induction l with
  | nil => intro acc; rfl
  | cons k l ih =>
    intro acc
    simp only [List.foldl_cons]
    exact ih _

theorem foldl_computeActions1_fields (l : List Nat) (s : SwarmState) :
    ((l.foldl (fun s i => (computeActions1 s i).2) s).drone_modes = s.drone_modes ∧
     (l.foldl (fun s i => (computeActions1 s i).2) s).batteries = s.batteries ∧
     (l.foldl (fun s i => (computeActions1 s i).2) s).num_drones = s.num_drones ∧
     (l.foldl (fun s i => (computeActions1 s i).2) s).physics_hz = s.physics_hz ∧
     (l.foldl (fun s i => (computeActions1 s i).2) s).control_hz = s.control_hz ∧
     (l.foldl (fun s i => (computeActions1 s i).2) s).command_queue = s.command_queue ∧
     (l.foldl (fun s i => (computeActions1 s i).2) s).battery_drain_rate =
       s.battery_drain_rate ∧
     (l.foldl (fun s i => (computeActions1 s i).2) s).step_count = s.step_count) := by
  induction l generalizing s with
  | nil => exact ⟨rfl, rfl, rfl, rfl, rfl, rfl, rfl, rfl⟩
  | cons k l ih =>
    simp only [List.foldl_cons]
    obtain ⟨h1, h2, h3, h4, h5, h6, h7, h8, _, _, _, _, _⟩ := computeActions1_fields s k
    obtain ⟨g1, g2, g3, g4, g5, g6, g7, g8⟩ := ih (computeActions1 s k).2
    exact ⟨g1.trans h1, g2.trans h2, g3.trans h3, g4.trans h4, g5.trans h5,
      g6.trans h6, g7.trans h7, g8.trans h8⟩

open Classical in
theorem foldl_checkHealth1_at (l : List Nat) (s : SwarmState) (i : Nat) :
    (l.foldl checkHealth1 s).health_status (i : ℤ) =
      if i ∈ l then
        (if |(s.env_pos i).x| > 15 ∨ |(s.env_pos i).y| > 15 ∨
            (s.env_pos i).z < 0 ∨ (s.env_pos i).z > 10 ∨ s.batteries (i : ℤ) ≤ 0
         then false else true)
      else s.health_status (i : ℤ) := by
  induction l generalizing s with
  | nil => simp
  | cons k l ih =>
    simp only [List.foldl_cons]
    rw [ih]
    by_cases hmem : i ∈ l
    · rw [if_pos hmem, if_pos (List.mem_cons_of_mem k hmem)]
      rfl
    · rw [if_neg hmem]
      by_cases hik : i = k
      · subst hik
        rw [if_pos (List.mem_cons_self i l)]
        simp only [checkHealth1, Function.update_same]
      · rw [if_neg (by simp [hik, hmem])]
        simp only [checkHealth1]
        rw [Function.update_noteq (by exact_mod_cast hik)]

theorem processCommands_nil (s : SwarmState) (h : s.command_queue = []) :
    processCommands s = .ok { s with command_queue := [] } := by
  unfold processCommands
  rw [h]
  rfl

open Classical in
theorem step_eq (s t : SwarmState) (p : Nat → Vec3) (y : Nat → ℝ)
    (h : processCommands s = .ok t) :
    step s p y = .ok (checkHealth (
      let s2 := if t.sim_time - t.last_control_time ≥ t.control_dt - 1e-6
                then { controlUpdate t with last_control_time := t.sim_time } else t
      let s3 := (computeActions s2).2
      let s4 := { s3 with env_pos := p, env_yaw := y }
      let s5 := { s4 with sim_time := s4.sim_time + s4.physics_dt
                          step_count := s4.step_count + 1 }
      if s5.step_count % s5.physics_hz = 0 then updateBatteries s5 else s5)) := by
  unfold step
  rw [h]
  rfl

theorem updateBatteries_endurance (u : SwarmState) (hun : u.num_drones = 2)
    (hm0 : u.drone_modes 0 = .velocity) (hm1 : u.drone_modes 1 = .idle)
    (hr : u.battery_drain_rate = 0.5) :
    (updateBatteries u).batteries 0 = max 0 (u.batteries 0 - 0.5 / 60) ∧
    (updateBatteries u).batteries 1 = u.batteries 1 ∧
    (updateBatteries u).drone_modes = u.drone_modes ∧
    (updateBatteries u).num_drones = u.num_drones ∧
    (updateBatteries u).physics_hz = u.physics_hz ∧
    (updateBatteries u).command_queue = u.command_queue ∧
    (updateBatteries u).battery_drain_rate = u.battery_drain_rate ∧
    (updateBatteries u).step_count = u.step_count := by
  unfold updateBatteries
  obtain ⟨f1, f2, f3, f4, f5, f6⟩ :=
    foldl_updateBatteries1_fields (List.range u.num_drones) u
  have h0 := foldl_updateBatteries1_at (List.range u.num_drones) u 0
    (List.nodup_range u.num_drones)
  have h1 := foldl_updateBatteries1_at (List.range u.num_drones) u 1
    (List.nodup_range u.num_drones)
  rw [if_pos (show (0 : ℕ) ∈ List.range u.num_drones by rw [hun]; decide)] at h0
  rw [if_pos (show (1 : ℕ) ∈ List.range u.num_drones by rw [hun]; decide)] at h1
  simp only [Nat.cast_zero] at h0
  simp only [Nat.cast_one] at h1
  rw [hm0, hr] at h0
  rw [hm1] at h1
  rw [if_pos (by decide : (DroneMode.velocity ≠ DroneMode.idle))] at h0
  rw [if_neg (by simp : ¬(DroneMode.idle ≠ DroneMode.idle))] at h1
  exact ⟨h0, h1, f1, f2, f3, f4, f5, f6⟩

theorem checkHealth_fields (u : SwarmState) :
    (checkHealth u).batteries = u.batteries ∧
    (checkHealth u).drone_modes = u.drone_modes ∧
    (checkHealth u).num_drones = u.num_drones ∧
    (checkHealth u).physics_hz = u.physics_hz ∧
    (checkHealth u).command_queue = u.command_queue ∧
    (checkHealth u).battery_drain_rate = u.battery_drain_rate ∧
    (checkHealth u).step_count = u.step_count :=
  foldl_checkHealth1_fields (List.range u.num_drones) u

theorem controlUpdate_endurance (u : SwarmState) (hun : u.num_drones = 2)
    (hm0 : u.drone_modes 0 = .velocity) (hm1 : u.drone_modes 1 = .idle) :
    (controlUpdate u).batteries = u.batteries ∧
    (controlUpdate u).num_drones = u.num_drones ∧
    (controlUpdate u).physics_hz = u.physics_hz ∧
    (controlUpdate u).command_queue = u.command_queue ∧
    (controlUpdate u).battery_drain_rate = u.battery_drain_rate ∧
    (controlUpdate u).step_count = u.step_count ∧
    (controlUpdate u).drone_modes 0 = .velocity ∧
    (controlUpdate u).drone_modes 1 = .idle := by
  unfold controlUpdate
  obtain ⟨b, n, hz, _, q, r, sc, _, _, _, _⟩ :=
    foldl_controlUpdate1_fields (List.range u.num_drones) u
  refine ⟨b, n, hz, q, r, sc, ?_, ?_⟩
  · rw [foldl_controlUpdate1_modes_stable _ u 0
      (by rw [hm0]; decide) (by rw [hm0]; decide), hm0]
  · rw [foldl_controlUpdate1_modes_stable _ u 1
      (by rw [hm1]; decide) (by rw [hm1]; decide), hm1]

theorem computeActions_endurance (u : SwarmState) :
    ((computeActions u).2.drone_modes = u.drone_modes ∧
     (computeActions u).2.batteries = u.batteries ∧
     (computeActions u).2.num_drones = u.num_drones ∧
     (computeActions u).2.physics_hz = u.physics_hz ∧
     (computeActions u).2.command_queue = u.command_queue ∧
     (computeActions u).2.battery_drain_rate = u.battery_drain_rate ∧
     (computeActions u).2.step_count = u.step_count) := by
  rw [computeActions_snd]
  obtain ⟨h1, h2, h3, h4, _, h6, h7, h8⟩ :=
    foldl_computeActions1_fields (List.range u.num_drones) u
  exact ⟨h1, h2, h3, h4, h6, h7, h8⟩

open Classical in
theorem step_endurance (s : SwarmState) (p : Nat → Vec3) (y : Nat → ℝ)
    (hq : s.command_queue = []) (hn : s.num_drones = 2) (hhz : s.physics_hz = 240)
    (hm0 : s.drone_modes 0 = .velocity) (hm1 : s.drone_modes 1 = .idle)
    (hr : s.battery_drain_rate = 0.5) :
    ∃ s', step s p y = .ok s' ∧
      s'.command_queue = [] ∧ s'.num_drones = 2 ∧ s'.physics_hz = 240 ∧
      s'.battery_drain_rate = 0.5 ∧ s'.drone_modes 0 = .velocity ∧
      s'.drone_modes 1 = .idle ∧ s'.step_count = s.step_count + 1 ∧
      s'.batteries 0 = (if (s.step_count + 1) % 240 = 0
          then max 0 (s.batteries 0 - 0.5 / 60) else s.batteries 0) ∧
      s'.batteries 1 = s.batteries 1 := by
  have hpc : processCommands s = .ok { s with command_queue := [] } :=
    processCommands_nil s hq
  refine ⟨_, step_eq s _ p y hpc, ?_⟩
  -- properties of the post-control-update state s2
  have h2 : ∀ u : SwarmState, u.batteries = s.batteries → u.num_drones = 2 →
      u.physics_hz = 240 → u.command_queue = [] → u.battery_drain_rate = 0.5 →
      u.step_count = s.step_count → u.drone_modes 0 = .velocity →
      u.drone_modes 1 = .idle →
      ∀ v : SwarmState, v = (computeActions u).2 →
      v.batteries = s.batteries ∧ v.num_drones = 2 ∧ v.physics_hz = 240 ∧
      v.command_queue = [] ∧ v.battery_drain_rate = 0.5 ∧
      v.step_count = s.step_count ∧ v.drone_modes 0 = .velocity ∧
      v.drone_modes 1 = .idle := by
    intro u hb hn' hz' hq' hr' hsc' h0' h1' v hv
    obtain ⟨c1, c2, c3, c4, c5, c6, c7⟩ := computeActions_endurance u
    subst hv
    exact ⟨c2.trans hb, c3.trans hn', c4.trans hz', c5.trans hq', c6.trans hr',
      c7.trans hsc', by rw [c1]; exact h0', by rw [c1]; exact h1'⟩
  have hT : ({ s with command_queue := [] } : SwarmState).batteries = s.batteries ∧
      ({ s with command_queue := [] } : SwarmState).num_drones = 2 ∧
      ({ s with command_queue := [] } : SwarmState).physics_hz = 240 ∧
      ({ s with command_queue := [] } : SwarmState).battery_drain_rate = 0.5 ∧
      ({ s with command_queue := [] } : SwarmState).step_count = s.step_count ∧
      ({ s with command_queue := [] } : SwarmState).drone_modes 0 = .velocity ∧
      ({ s with command_queue := [] } : SwarmState).drone_modes 1 = .idle :=
    ⟨rfl, hn, hhz, hr, rfl, hm0, hm1⟩
  obtain ⟨t1, t2, t3, t4, t5, t6, t7⟩ := hT
  -- s2: either branch of the control-update conditional
  have h3 : ∀ s2 : SwarmState,
      (s2 = { controlUpdate { s with command_queue := [] } with
                last_control_time := ({ s with command_queue := [] } : SwarmState).sim_time } ∨
       s2 = { s with command_queue := [] }) →
      s2.batteries = s.batteries ∧ s2.num_drones = 2 ∧ s2.physics_hz = 240 ∧
      s2.command_queue = [] ∧ s2.battery_drain_rate = 0.5 ∧
      s2.step_count = s.step_count ∧ s2.drone_modes 0 = .velocity ∧
      s2.drone_modes 1 = .idle := by
    rintro s2 (rfl | rfl)
    · obtain ⟨b, n, hz, q, r, sc, m0, m1⟩ :=
        controlUpdate_endurance { s with command_queue := [] } t2 t6 t7
      exact ⟨b.trans t1, n.trans t2, hz.trans t3, q, r.trans t4, sc, m0, m1⟩
    · exact ⟨t1, t2, t3, rfl, t4, t5, t6, t7⟩
  set t := ({ s with command_queue := [] } : SwarmState)
  set s2 := if t.sim_time - t.last_control_time ≥ t.control_dt - 1e-6
            then { controlUpdate t with last_control_time := t.sim_time } else t
  have hs2 := h3 s2 (by
    by_cases hcc : t.sim_time - t.last_control_time ≥ t.control_dt - 1e-6
    · exact Or.inl (if_pos hcc)
    · exact Or.inr (if_neg hcc))
  obtain ⟨u1, u2, u3, u4, u5, u6, u7, u8⟩ := hs2
  -- s3 = (computeActions s2).2
  obtain ⟨v1, v2, v3, v4, v5, v6, v7, v8⟩ :=
    h2 s2 u1 u2 u3 u4 u5 u6 u7 u8 (computeActions s2).2 rfl
  -- s4 and s5 are record updates of s3
  set s3 := (computeActions s2).2
  set s4 := ({ s3 with env_pos := p, env_yaw := y } : SwarmState)
  set s5 := ({ s4 with sim_time := s4.sim_time + s4.physics_dt
                       step_count := s4.step_count + 1 } : SwarmState)
  have w1 : s5.batteries = s.batteries := v1
  have w2 : s5.num_drones = 2 := v2
  have w3 : s5.physics_hz = 240 := v3
  have w4 : s5.command_queue = [] := v4
  have w5 : s5.battery_drain_rate = 0.5 := v5
  have w6 : s5.step_count = s.step_count + 1 := by
    show s4.step_count + 1 = s.step_count + 1
    rw [show s4.step_count = s3.step_count from rfl, v6]
  have w7 : s5.drone_modes 0 = .velocity := v7
  have w8 : s5.drone_modes 1 = .idle := v8
  -- the battery-update conditional
  have hcond : (s5.step_count % s5.physics_hz = 0) ↔
      ((s.step_count + 1) % 240 = 0) := by
    rw [w6, w3]
  by_cases hb : (s.step_count + 1) % 240 = 0
  · rw [if_pos (hcond.mpr hb)]
    obtain ⟨a1, a2, a3, a4, a5, a6, a7, a8⟩ :=
      updateBatteries_endurance s5 w2 w7 w8 w5
    obtain ⟨k1, k2, k3, k4, k5, k6, k7⟩ := checkHealth_fields (updateBatteries s5)
    refine ⟨k5.trans (a6.trans w4), k3.trans (a4.trans w2), k4.trans (a5.trans w3),
      k6.trans (a7.trans w5), ?_, ?_, k7.trans (a8.trans w6), ?_, ?_⟩
    · rw [k2, a3, w7]
    · rw [k2, a3, w8]
    · rw [k1, a1, if_pos hb]
      congr 1
      rw [w1]
    · rw [k1, a2, w1]
  · rw [if_neg (fun hc => hb (hcond.mp hc))]
    obtain ⟨k1, k2, k3, k4, k5, k6, k7⟩ := checkHealth_fields s5
    refine ⟨k5.trans w4, k3.trans w2, k4.trans w3, k6.trans w5,
      ?_, ?_, k7.trans w6, ?_, ?_⟩
    · rw [k2, w7]
    · rw [k2, w8]
    · rw [if_neg hb, k1, w1]
    · rw [k1, w1]

end SwarmState

open SwarmState in
/-- Claim C7: after `_check_health`, a drone's healthy flag is `false`
iff `|x| > 15 ∨ |y| > 15 ∨ z < 0 ∨ z > 10 ∨ battery ≤ 0` at that check
(equivalently, `true` iff all bounds hold with positive battery), and the
flag is recomputed from scratch: the result does not depend on the
previous `health_status`, so a drone back in bounds reads healthy again
at the next check. -/
theorem health_check_spec (s : SwarmState) (i : Nat) (hi : i < s.num_drones) :
    ((checkHealth s).health_status (i : ℤ) = false ↔
        (|(s.env_pos i).x| > 15 ∨ |(s.env_pos i).y| > 15 ∨
         (s.env_pos i).z < 0 ∨ (s.env_pos i).z > 10 ∨ s.batteries (i : ℤ) ≤ 0)) ∧
    ((checkHealth s).health_status (i : ℤ) = true ↔
        (|(s.env_pos i).x| ≤ 15 ∧ |(s.env_pos i).y| ≤ 15 ∧
         0 ≤ (s.env_pos i).z ∧ (s.env_pos i).z ≤ 10 ∧ 0 < s.batteries (i : ℤ))) ∧
    (∀ h : ℤ → Bool,
        (checkHealth { s with health_status := h }).health_status (i : ℤ) =
          (checkHealth s).health_status (i : ℤ)) := by
  have hmem : i ∈ List.range s.num_drones := List.mem_range.mpr hi
  have hval : (checkHealth s).health_status (i : ℤ) =
      (if |(s.env_pos i).x| > 15 ∨ |(s.env_pos i).y| > 15 ∨
          (s.env_pos i).z < 0 ∨ (s.env_pos i).z > 10 ∨ s.batteries (i : ℤ) ≤ 0
       then false else true) := by
    unfold checkHealth
    have h := foldl_checkHealth1_at (List.range s.num_drones) s i
    rwa [if_pos hmem] at h
  have hval' : ∀ h : ℤ → Bool,
      (checkHealth { s with health_status := h }).health_status (i : ℤ) =
        (if |(s.env_pos i).x| > 15 ∨ |(s.env_pos i).y| > 15 ∨
            (s.env_pos i).z < 0 ∨ (s.env_pos i).z > 10 ∨ s.batteries (i : ℤ) ≤ 0
         then false else true) := by
    intro h
    unfold checkHealth
    have h2 := foldl_checkHealth1_at (List.range s.num_drones)
      { s with health_status := h } i
    rwa [if_pos hmem] at h2
  refine ⟨?_, ?_, fun h => by rw [hval' h, hval]⟩
  · rw [hval]
    by_cases hc : |(s.env_pos i).x| > 15 ∨ |(s.env_pos i).y| > 15 ∨
        (s.env_pos i).z < 0 ∨ (s.env_pos i).z > 10 ∨ s.batteries (i : ℤ) ≤ 0
    · rw [if_pos hc]
      exact ⟨fun _ => hc, fun _ => rfl⟩
    · rw [if_neg hc]
      exact ⟨fun heq => absurd heq (by simp), fun hcond => absurd hcond hc⟩
  · rw [hval]
    by_cases hc : |(s.env_pos i).x| > 15 ∨ |(s.env_pos i).y| > 15 ∨
        (s.env_pos i).z < 0 ∨ (s.env_pos i).z > 10 ∨ s.batteries (i : ℤ) ≤ 0
    · rw [if_pos hc]
      refine ⟨fun heq => absurd heq (by simp), fun hall => ?_⟩
      rcases hc with h | h | h | h | h
      · exact absurd hall.1 (not_le.mpr h)
      · exact absurd hall.2.1 (not_le.mpr h)
      · exact absurd hall.2.2.1 (not_le.mpr h)
      · exact absurd hall.2.2.2.1 (not_le.mpr h)
      · exact absurd hall.2.2.2.2 (not_lt.mpr h)
    · rw [if_neg hc]
      have hc2 := hc
      push_neg at hc2
      exact ⟨fun _ => hc2, fun _ => rfl⟩

/-- Witness for `health_check_spec`: the freshly initialized two-drone
world, drone 0. -/
theorem health_check_spec_witness :
    0 < (mkWorld 2).num_drones ∧
    (((mkWorld 2).checkHealth.health_status ((0 : ℕ) : ℤ) = false ↔
        (|((mkWorld 2).env_pos 0).x| > 15 ∨ |((mkWorld 2).env_pos 0).y| > 15 ∨
         ((mkWorld 2).env_pos 0).z < 0 ∨ ((mkWorld 2).env_pos 0).z > 10 ∨
         (mkWorld 2).batteries ((0 : ℕ) : ℤ) ≤ 0)) ∧
     ((mkWorld 2).checkHealth.health_status ((0 : ℕ) : ℤ) = true ↔
        (|((mkWorld 2).env_pos 0).x| ≤ 15 ∧ |((mkWorld 2).env_pos 0).y| ≤ 15 ∧
         0 ≤ ((mkWorld 2).env_pos 0).z ∧ ((mkWorld 2).env_pos 0).z ≤ 10 ∧
         0 < (mkWorld 2).batteries ((0 : ℕ) : ℤ))) ∧
     (∀ h : ℤ → Bool,
        (SwarmState.checkHealth { mkWorld 2 with health_status := h }).health_status
            ((0 : ℕ) : ℤ) =
          (mkWorld 2).checkHealth.health_status ((0 : ℕ) : ℤ))) :=
  ⟨by norm_num [mkWorld], health_check_spec (mkWorld 2) 0 (by norm_num [mkWorld])⟩

namespace SwarmState

theorem runSteps_endurance (p : Nat → Nat → Vec3) (y : Nat → Nat → ℝ) (n : Nat) :
    ∃ s', runSteps enduranceState p y n = .ok s' ∧
      s'.command_queue = [] ∧ s'.num_drones = 2 ∧ s'.physics_hz = 240 ∧
      s'.battery_drain_rate = 0.5 ∧ s'.drone_modes 0 = .velocity ∧
      s'.drone_modes 1 = .idle ∧ s'.step_count = n ∧
      s'.batteries 0 = max 0 (100 - ((n / 240 : ℕ) : ℝ) * (0.5 / 60)) ∧
      s'.batteries 1 = 100 := by
  induction n with
  | zero =>
    refine ⟨enduranceState, rfl, rfl, rfl, rfl, rfl,
      by norm_num [enduranceState, mkWorld], by norm_num [enduranceState, mkWorld],
      rfl, by norm_num [enduranceState, mkWorld], rfl⟩
  | succ n ih =>
    obtain ⟨s', hrun, hq, hn2, hhz, hr, hm0, hm1, hsc, hb0, hb1⟩ := ih
    obtain ⟨s'', hstep, gq, gn, ghz, gr, gm0, gm1, gsc, gb0, gb1⟩ :=
      step_endurance s' (p n) (y n) hq hn2 hhz hm0 hm1 hr
    refine ⟨s'', ?_, gq, gn, ghz, gr, gm0, gm1, ?_, ?_, gb1.trans hb1⟩
    · rw [show runSteps enduranceState p y (n + 1) =
          (runSteps enduranceState p y n).bind (fun u => step u (p n) (y n)) from rfl,
        hrun]
      exact hstep
    · rw [gsc, hsc]
    · rw [gb0, hsc, hb0]
      by_cases hdvd : (n + 1) % 240 = 0
      · rw [if_pos hdvd]
        have hdiv : (n + 1) / 240 = n / 240 + 1 := by omega
        rw [hdiv]
        rcases le_or_lt 0 (100 - ((n / 240 : ℕ) : ℝ) * (0.5 / 60)) with hpos | hneg
        · rw [max_eq_right hpos]
          rw [show (100 : ℝ) - ((n / 240 : ℕ) : ℝ) * (0.5 / 60) - 0.5 / 60 =
              100 - ((n / 240 + 1 : ℕ) : ℝ) * (0.5 / 60) by push_cast; ring]
        · rw [max_eq_left hneg.le,
            max_eq_left (by norm_num : (0 : ℝ) - 0.5 / 60 ≤ 0)]
          have hle : (100 : ℝ) - (((n / 240 : ℕ) : ℝ) + 1) * (0.5 / 60) ≤ 0 := by
            have hexp : ((((n / 240 : ℕ) : ℝ) + 1) * (0.5 / 60)) =
                ((n / 240 : ℕ) : ℝ) * (0.5 / 60) + 0.5 / 60 := by ring
            rw [hexp]
            linarith
          rw [eq_comm,
            show ((n / 240 + 1 : ℕ) : ℝ) = ((n / 240 : ℕ) : ℝ) + 1 by push_cast; ring]
          exact max_eq_left hle
      · rw [if_neg hdvd]
        have hdiv : (n + 1) / 240 = n / 240 := by omega
        rw [hdiv]

theorem getPosition_ok (s : SwarmState) (i : ℤ) (h0 : 0 ≤ i)
    (h1 : i < (s.num_drones : ℤ)) :
    s.getPosition i = .ok (s.env_pos i.toNat) := by
  unfold getPosition
  rw [if_pos ⟨h0, h1⟩]

theorem takeoffDrone_ok (s : SwarmState) (i : ℤ) (alt : ℝ) (h0 : 0 ≤ i)
    (h1 : i < (s.num_drones : ℤ)) :
    takeoffDrone s i alt = .ok { s with
      target_positions := Function.update s.target_positions i
        (some (clamp_position { s.env_pos i.toNat with z := alt }))
      target_yaws := Function.update s.target_yaws i (some 0)
      drone_modes := Function.update s.drone_modes i .takeoff } := by
  unfold takeoffDrone
  rw [getPosition_ok s i h0 h1]
  rfl

theorem landDrone_ok (s : SwarmState) (i : ℤ) (h0 : 0 ≤ i)
    (h1 : i < (s.num_drones : ℤ)) :
    landDrone s i = .ok { s with
      target_positions := Function.update s.target_positions i
        (some { s.env_pos i.toNat with z := (0.05 : ℝ) })
      target_yaws := Function.update s.target_yaws i (some 0)
      drone_modes := Function.update s.drone_modes i .landing } := by
  unfold landDrone
  rw [getPosition_ok s i h0 h1]
  rfl

theorem takeoffDrone_ok' (s : SwarmState) (i : ℤ) (alt : ℝ) (h0 : 0 ≤ i)
    (h1 : i < (s.num_drones : ℤ)) :
    ∃ s1, takeoffDrone s i alt = .ok s1 ∧ s1.num_drones = s.num_drones ∧
      s1.env_pos = s.env_pos ∧ s1.command_queue = s.command_queue ∧
      s1.drone_modes = Function.update s.drone_modes i .takeoff :=
  ⟨_, takeoffDrone_ok s i alt h0 h1, rfl, rfl, rfl, rfl⟩

theorem landDrone_ok' (s : SwarmState) (i : ℤ) (h0 : 0 ≤ i)
    (h1 : i < (s.num_drones : ℤ)) :
    ∃ s1, landDrone s i = .ok s1 ∧ s1.num_drones = s.num_drones ∧
      s1.env_pos = s.env_pos ∧ s1.command_queue = s.command_queue ∧
      s1.drone_modes = Function.update s.drone_modes i .landing :=
  ⟨_, landDrone_ok s i h0 h1, rfl, rfl, rfl, rfl⟩

theorem foldlM_takeoffDrone_ok (l : List ℤ) (s : SwarmState) (alt : ℝ)
    (h : ∀ i ∈ l, 0 ≤ i ∧ i < (s.num_drones : ℤ)) :
    ∃ s2, l.foldlM (fun s i => takeoffDrone s i alt) s = .ok s2 ∧
      s2.num_drones = s.num_drones ∧ s2.env_pos = s.env_pos ∧
      s2.command_queue = s.command_queue := by
  induction l generalizing s with
  | nil => exact ⟨s, rfl, rfl, rfl, rfl⟩
  | cons k l ih =>
    obtain ⟨hk0, hk1⟩ := h k (List.mem_cons_self k l)
    obtain ⟨s1, hstep, a1, a2, a3, _⟩ := takeoffDrone_ok' s k alt hk0 hk1
    obtain ⟨s2, hfold, hn, he, hq⟩ := ih s1
      (fun i hi => by rw [a1]; exact h i (List.mem_cons_of_mem k hi))
    refine ⟨s2, ?_, hn.trans a1, he.trans a2, hq.trans a3⟩
    rw [List.foldlM_cons, hstep]
    exact hfold

theorem foldlM_landDrone_ok (l : List ℤ) (s : SwarmState)
    (h : ∀ i ∈ l, 0 ≤ i ∧ i < (s.num_drones : ℤ)) :
    ∃ s2, l.foldlM landDrone s = .ok s2 ∧
      s2.num_drones = s.num_drones ∧ s2.env_pos = s.env_pos ∧
      s2.command_queue = s.command_queue ∧
      (∀ j : ℤ, j ∈ l → s2.drone_modes j = .landing) ∧
      (∀ j : ℤ, j ∉ l → s2.drone_modes j = s.drone_modes j) := by
  induction l generalizing s with
  | nil => exact ⟨s, rfl, rfl, rfl, rfl, by simp, fun j _ => rfl⟩
  | cons k l ih =>
    obtain ⟨hk0, hk1⟩ := h k (List.mem_cons_self k l)
    obtain ⟨s1, hstep, a1, a2, a3, a4⟩ := landDrone_ok' s k hk0 hk1
    obtain ⟨s2, hfold, hn, he, hq, hin, hout⟩ := ih s1
      (fun i hi => by rw [a1]; exact h i (List.mem_cons_of_mem k hi))
    refine ⟨s2, ?_, hn.trans a1, he.trans a2, hq.trans a3, ?_, ?_⟩
    · rw [List.foldlM_cons, hstep]
      exact hfold
    · intro j hj
      rcases List.mem_cons.mp hj with rfl | hjl
      · by_cases hkl : j ∈ l
        · exact hin j hkl
        · rw [hout j hkl, a4]
          exact Function.update_same _ _ _
      · exact hin j hjl
    · intro j hj
      have hjl : j ∉ l := fun hc => hj (List.mem_cons_of_mem k hc)
      have hjk : j ≠ k := fun hc => hj (hc ▸ List.mem_cons_self k l)
      rw [hout j hjl, a4]
      exact Function.update_noteq hjk _ _

theorem resolveIds_all_valid (s : SwarmState) :
    ∀ i ∈ resolveIds s .all, 0 ≤ i ∧ i < (s.num_drones : ℤ) := by
  intro i hi
  unfold resolveIds at hi
  obtain ⟨k, hk, rfl⟩ := List.mem_map.mp hi
  exact ⟨Int.ofNat_nonneg k, Int.ofNat_lt.mpr (List.mem_range.mp hk)⟩

end SwarmState

open SwarmState in
/-- Claim C8: `_process_commands` drains the entire queue in FIFO order
before any control computation; with `takeoff(all, 1.0)` then
`land(all)` queued, the drain succeeds, empties the queue and leaves
every drone in Landing mode (the later command wins). -/
theorem command_queue_fifo_drain (s : SwarmState) (alt : ℝ)
    (hq : s.command_queue = [DroneCommand.takeoff .all alt, DroneCommand.land .all]) :
    ∃ s', processCommands s = .ok s' ∧ s'.command_queue = [] ∧
      ∀ i : Nat, i < s.num_drones → s'.drone_modes (i : ℤ) = .landing := by
  unfold processCommands
  rw [hq]
  simp only [processCommandsAux]
  have h0 : (({ s with command_queue := [] } : SwarmState)).num_drones
      = s.num_drones := rfl
  obtain ⟨s1, hf1, hn1, he1, hq1⟩ :=
    foldlM_takeoffDrone_ok (resolveIds { s with command_queue := [] } .all)
      { s with command_queue := [] } alt
      (resolveIds_all_valid { s with command_queue := [] })
  obtain ⟨s2, hf2, hn2, he2, hq2, hin, hout⟩ :=
    foldlM_landDrone_ok (resolveIds s1 .all) s1 (resolveIds_all_valid s1)
  refine ⟨s2, ?_, ?_, ?_⟩
  · show (executeCommand { s with command_queue := [] }
        (DroneCommand.takeoff .all alt)).bind _ = .ok s2
    rw [show executeCommand { s with command_queue := [] }
          (DroneCommand.takeoff .all alt) =
        (resolveIds { s with command_queue := [] } .all).foldlM
          (fun s i => takeoffDrone s i alt) { s with command_queue := [] } from rfl,
      hf1]
    show (executeCommand s1 (DroneCommand.land .all)).bind _ = .ok s2
    rw [show executeCommand s1 (DroneCommand.land .all) =
        (resolveIds s1 .all).foldlM landDrone s1 from rfl, hf2]
    rfl
  · rw [hq2, hq1]
  · intro i hi
    refine hin (i : ℤ) ?_
    unfold resolveIds
    refine List.mem_map.mpr ⟨i, List.mem_range.mpr ?_, rfl⟩
    rw [hn1, h0]
    exact hi

open SwarmState in
/-- Witness for `command_queue_fifo_drain`: the concrete queued-commands
scenario (two drones, `takeoff(all, 1.0)` then `land(all)`). -/
theorem command_queue_fifo_drain_witness :
    queuedCommandsState.command_queue =
      [DroneCommand.takeoff .all 1.0, DroneCommand.land .all] ∧
    (∃ s', processCommands queuedCommandsState = .ok s' ∧ s'.command_queue = [] ∧
      ∀ i : Nat, i < queuedCommandsState.num_drones →
        s'.drone_modes (i : ℤ) = .landing) :=
  ⟨rfl, command_queue_fifo_drain queuedCommandsState 1.0 rfl⟩

namespace SwarmState

theorem controlUpdate1_hover_ne (s : SwarmState) (k : Nat) (j : ℤ)
    (hkj : (k : ℤ) ≠ j) :
    (controlUpdate1 s k).hover_positions j = s.hover_positions j := by
  simp only [controlUpdate1]
  repeat' split
  all_goals simp [Function.update_noteq (Ne.symm hkj)]

theorem foldl_controlUpdate1_untouched (l : List Nat) (s : SwarmState) (i : Nat)
    (hmem : i ∉ l) :
    (l.foldl controlUpdate1 s).drone_modes (i : ℤ) = s.drone_modes (i : ℤ) ∧
    (l.foldl controlUpdate1 s).hover_positions (i : ℤ) = s.hover_positions (i : ℤ) := by
  induction l generalizing s with
  | nil => exact ⟨rfl, rfl⟩
  | cons k l ih =>
    have hik : (k : ℤ) ≠ (i : ℤ) := fun hc =>
      hmem (List.mem_cons.mpr (Or.inl (Int.natCast_inj.mp hc).symm))
    simp only [List.foldl_cons]
    obtain ⟨um, uh⟩ := ih (controlUpdate1 s k)
      (fun hc => hmem (List.mem_cons_of_mem k hc))
    exact ⟨um.trans (controlUpdate1_drone_modes_ne s k (i : ℤ) hik),
      uh.trans (controlUpdate1_hover_ne s k (i : ℤ) hik)⟩

theorem controlUpdate1_takeoff_arrival (s : SwarmState) (k : Nat) (t : Vec3)
    (hmode : s.drone_modes (k : ℤ) = .takeoff)
    (htp : s.target_positions (k : ℤ) = some t)
    (hdist : (t - s.env_pos k).normV < 0.1) :
    (controlUpdate1 s k).drone_modes (k : ℤ) = .hover ∧
    (controlUpdate1 s k).hover_positions (k : ℤ) = some (s.env_pos k) := by
  simp only [controlUpdate1, htp, hmode]
  rw [if_pos (Or.inl trivial)]
  rw [if_neg (by rintro ⟨hc, -⟩; exact DroneMode.noConfusion hc)]
  rw [if_pos ⟨trivial, hdist⟩]
  exact ⟨Function.update_same _ _ _, Function.update_same _ _ _⟩

theorem foldl_controlUpdate1_takeoff_arrival (l : List Nat) (s : SwarmState)
    (i : Nat) (t : Vec3) (hnd : l.Nodup) (hmem : i ∈ l)
    (hmode : s.drone_modes (i : ℤ) = .takeoff)
    (htp : s.target_positions (i : ℤ) = some t)
    (hdist : (t - s.env_pos i).normV < 0.1) :
    (l.foldl controlUpdate1 s).drone_modes (i : ℤ) = .hover ∧
    (l.foldl controlUpdate1 s).hover_positions (i : ℤ) = some (s.env_pos i) := by
  induction l generalizing s with
  | nil => cases hmem
  | cons k l ih =>
    obtain ⟨hknotin, hnd'⟩ := List.nodup_cons.mp hnd
    simp only [List.foldl_cons]
    by_cases hik : i = k
    · subst hik
      obtain ⟨hm, hh⟩ := controlUpdate1_takeoff_arrival s i t hmode htp hdist
      obtain ⟨um, uh⟩ := foldl_controlUpdate1_untouched l (controlUpdate1 s i) i hknotin
      exact ⟨um.trans hm, by rw [uh, hh]⟩
    · have hki : (k : ℤ) ≠ (i : ℤ) := fun hc => hik (Int.natCast_inj.mp hc).symm
      have hmem' : i ∈ l := by
        rcases List.mem_cons.mp hmem with hc | hc
        · exact absurd hc hik
        · exact hc
      have henv : (controlUpdate1 s k).env_pos = s.env_pos :=
        (controlUpdate1_fields s k).2.2.2.2.2.2.2.1
      obtain ⟨rm, rh⟩ := ih (controlUpdate1 s k) hnd' hmem'
        (by rw [controlUpdate1_drone_modes_ne s k (i : ℤ) hki]; exact hmode)
        (by rw [(controlUpdate1_fields s k).2.2.2.2.2.2.2.2.2.1]; exact htp)
        (by rw [henv]; exact hdist)
      rw [henv] at rh
      exact ⟨rm, rh⟩

open Classical in
theorem computeActions1_pos_mode (s : SwarmState) (k : Nat) (tp : Vec3)
    (hm : s.drone_modes (k : ℤ) = .takeoff ∨ s.drone_modes (k : ℤ) = .landing ∨
          s.drone_modes (k : ℤ) = .goto ∨ s.drone_modes (k : ℤ) = .hover)
    (htp : s.target_positions (k : ℤ) = some tp) :
    (computeActions1 s k).2 = { s with
      position_controllers := Function.update s.position_controllers (k : ℤ)
        (((s.position_controllers (k : ℤ)).compute_control (s.env_pos k) tp
            (s.env_yaw k) ((s.target_yaws (k : ℤ)).getD 0) s.control_dt).2)
      target_velocities := Function.update s.target_velocities (k : ℤ)
        (some (((s.position_controllers (k : ℤ)).compute_control (s.env_pos k) tp
            (s.env_yaw k) ((s.target_yaws (k : ℤ)).getD 0) s.control_dt).1.1))
      target_yaw_rates := Function.update s.target_yaw_rates (k : ℤ)
        (some (((s.position_controllers (k : ℤ)).compute_control (s.env_pos k) tp
            (s.env_yaw k) ((s.target_yaws (k : ℤ)).getD 0) s.control_dt).1.2)) } := by
  simp only [computeActions1, htp]
  rw [if_pos hm]
  rw [apply_ite Prod.snd, ite_self]

end SwarmState

open SwarmState in
/-- Claim C1 (amended): when a control update finds a Takeoff-mode drone
within 0.1 m of its target, the mode becomes Hover and the current
(arrived) position is recorded in `hover_positions`; but
`target_positions` — the entry the position controller actually tracks
in `_compute_actions` while in Hover — still holds the original takeoff
target, not the arrived position (`hover_positions` is never read by the
control path). -/
theorem takeoff_arrival_hover_anchor_amended (s : SwarmState) (i : Nat) (t : Vec3)
    (hi : i < s.num_drones) (hmode : s.drone_modes (i : ℤ) = .takeoff)
    (htp : s.target_positions (i : ℤ) = some t)
    (hdist : (t - s.env_pos i).normV < 0.1) :
    (controlUpdate s).drone_modes (i : ℤ) = .hover ∧
    (controlUpdate s).hover_positions (i : ℤ) = some (s.env_pos i) ∧
    (controlUpdate s).target_positions (i : ℤ) = some t := by
  unfold controlUpdate
  obtain ⟨hm, hh⟩ := foldl_controlUpdate1_takeoff_arrival
    (List.range s.num_drones) s i t (List.nodup_range s.num_drones)
    (List.mem_range.mpr hi) hmode htp hdist
  refine ⟨hm, hh, ?_⟩
  rw [(foldl_controlUpdate1_fields (List.range s.num_drones) s).2.2.2.2.2.2.2.2.2.1]
  exact htp

open SwarmState in
/-- Witness for `takeoff_arrival_hover_anchor_amended`: the concrete
takeoff-arrival scenario (target `(0,0,1)`, current `(0,0,0.95)`). -/
theorem takeoff_arrival_hover_anchor_amended_witness :
    0 < takeoffArrivalState.num_drones ∧
    takeoffArrivalState.drone_modes ((0 : ℕ) : ℤ) = .takeoff ∧
    takeoffArrivalState.target_positions ((0 : ℕ) : ℤ) = some ⟨0, 0, 1⟩ ∧
    ((⟨0, 0, 1⟩ : Vec3) - takeoffArrivalState.env_pos 0).normV < 0.1 ∧
    ((controlUpdate takeoffArrivalState).drone_modes ((0 : ℕ) : ℤ) = .hover ∧
     (controlUpdate takeoffArrivalState).hover_positions ((0 : ℕ) : ℤ) =
       some (takeoffArrivalState.env_pos 0) ∧
     (controlUpdate takeoffArrivalState).target_positions ((0 : ℕ) : ℤ) =
       some ⟨0, 0, 1⟩) := by
  have hdist : ((⟨0, 0, 1⟩ : Vec3) - takeoffArrivalState.env_pos 0).normV < 0.1 := by
    show ((⟨0, 0, 1⟩ : Vec3) - ⟨0, 0, 0.95⟩).normV < 0.1
    rw [Vec3.sub_def]
    unfold Vec3.normV
    rw [show ((0 : ℝ) - 0) ^ 2 + ((0 : ℝ) - 0) ^ 2 + ((1 : ℝ) - 0.95) ^ 2 = 0.05 ^ 2
        by norm_num,
      Real.sqrt_sq (by norm_num : (0 : ℝ) ≤ 0.05)]
    norm_num
  exact ⟨by norm_num [takeoffArrivalState, mkWorld], rfl, rfl, hdist,
    takeoff_arrival_hover_anchor_amended takeoffArrivalState 0 ⟨0, 0, 1⟩
      (by norm_num [takeoffArrivalState, mkWorld]) rfl rfl hdist⟩

open SwarmState in
/-- Claim C1 counterexample: in the concrete takeoff-arrival scenario
(fresh controllers, target `(0,0,1)`, arrived at `(0,0,0.95)`), the
control update switches the drone to Hover and records the arrived
position in the (never-read) `hover_positions` dict, but the target the
position controller keeps tracking (`target_positions`, as used by
`_compute_actions`) is still the original takeoff target `(0,0,1)` ≠
`(0,0,0.95)`; consequently the very next `_compute_actions` stores a
nonzero climb command `vz = 192001/120000 ≈ 1.6 m/s` toward the original
target, where tracking the arrived position with fresh controllers would
give zero. -/
theorem takeoff_arrival_tracks_original_target_cex :
    (controlUpdate takeoffArrivalState).drone_modes 0 = .hover ∧
    (controlUpdate takeoffArrivalState).hover_positions 0 = some ⟨0, 0, 0.95⟩ ∧
    (controlUpdate takeoffArrivalState).target_positions 0 = some ⟨0, 0, 1⟩ ∧
    (⟨0, 0, 1⟩ : Vec3) ≠ ⟨0, 0, 0.95⟩ ∧
    (computeActions (controlUpdate takeoffArrivalState)).2.target_velocities 0 =
      some ⟨0, 0, 192001 / 120000⟩ ∧
    (192001 / 120000 : ℝ) ≠ 0 := by
  have hdist : ((⟨0, 0, 1⟩ : Vec3) - takeoffArrivalState.env_pos 0).normV < 0.1 := by
    show ((⟨0, 0, 1⟩ : Vec3) - ⟨0, 0, 0.95⟩).normV < 0.1
    rw [Vec3.sub_def]
    unfold Vec3.normV
    rw [show ((0 : ℝ) - 0) ^ 2 + ((0 : ℝ) - 0) ^ 2 + ((1 : ℝ) - 0.95) ^ 2 = 0.05 ^ 2
        by norm_num,
      Real.sqrt_sq (by norm_num : (0 : ℝ) ≤ 0.05)]
    norm_num
  obtain ⟨hm, hh⟩ := foldl_controlUpdate1_takeoff_arrival
    (List.range takeoffArrivalState.num_drones) takeoffArrivalState 0 ⟨0, 0, 1⟩
    (List.nodup_range _)
    (by rw [show takeoffArrivalState.num_drones = 1 from rfl]; decide)
    rfl rfl hdist
  have hfields := foldl_controlUpdate1_fields
    (List.range takeoffArrivalState.num_drones) takeoffArrivalState
  have htpres : (controlUpdate takeoffArrivalState).target_positions =
      takeoffArrivalState.target_positions := hfields.2.2.2.2.2.2.2.2.2.1
  have hnum : (controlUpdate takeoffArrivalState).num_drones = 1 := hfields.2.1
  have hpos : (controlUpdate takeoffArrivalState).env_pos =
      takeoffArrivalState.env_pos := hfields.2.2.2.2.2.2.2.1
  have hyawe : (controlUpdate takeoffArrivalState).env_yaw =
      takeoffArrivalState.env_yaw := hfields.2.2.2.2.2.2.2.2.2.2.2
  have hty : (controlUpdate takeoffArrivalState).target_yaws =
      takeoffArrivalState.target_yaws := hfields.2.2.2.2.2.2.2.2.2.2.1
  have hpc : (controlUpdate takeoffArrivalState).position_controllers =
      takeoffArrivalState.position_controllers := hfields.2.2.2.2.2.2.2.2.1
  have hchz : (controlUpdate takeoffArrivalState).control_hz =
      takeoffArrivalState.control_hz := hfields.2.2.2.1
  have hdt : (controlUpdate takeoffArrivalState).control_dt = 1 / 60 := by
    unfold SwarmState.control_dt
    rw [hchz]
    norm_num [takeoffArrivalState, mkWorld]
  have hpid : ∀ e out : ℝ,
      2.0 * e + 0.01 * (0 + e * (1 / 60)) + 0.5 * ((e - 0) / (1 / 60)) = out →
      -2.0 ≤ out → out ≤ 2.0 →
      ((PIDController.init 2.0 0.01 0.5 (-2.0) 2.0).update e (1 / 60)).1 = out := by
    intro e out heq hlo hhi
    simp only [PIDController.update, PIDController.init, clip]
    rw [if_pos (by norm_num : (1 : ℝ) / 60 > 0), heq, max_eq_left hlo,
      min_eq_left hhi]
  have hcc : ((PositionController.init.compute_control ⟨0, 0, 0.95⟩ ⟨0, 0, 1⟩
      0 0 ((1 : ℝ) / 60)).1.1 : Vec3) = ⟨0, 0, 192001 / 120000⟩ := by
    have hx := hpid ((⟨0, 0, 1⟩ : Vec3).x - (⟨0, 0, 0.95⟩ : Vec3).x) 0
      (by norm_num) (by norm_num) (by norm_num)
    have hy := hpid ((⟨0, 0, 1⟩ : Vec3).y - (⟨0, 0, 0.95⟩ : Vec3).y) 0
      (by norm_num) (by norm_num) (by norm_num)
    have hz := hpid ((⟨0, 0, 1⟩ : Vec3).z - (⟨0, 0, 0.95⟩ : Vec3).z)
      (192001 / 120000) (by norm_num) (by norm_num) (by norm_num)
    exact Vec3.ext hx hy hz
  have htp0 : (controlUpdate takeoffArrivalState).target_positions ((0 : ℕ) : ℤ) =
      some ⟨0, 0, 1⟩ := by
    rw [htpres]
    rfl
  refine ⟨hm, hh, by rw [htpres]; rfl, ?_, ?_, by norm_num⟩
  · intro h
    have := congrArg Vec3.z h
    norm_num at this
  · have hsnd : (computeActions (controlUpdate takeoffArrivalState)).2 =
        (computeActions1 (controlUpdate takeoffArrivalState) 0).2 := by
      rw [computeActions_snd, hnum]
      rfl
    rw [hsnd, computeActions1_pos_mode (controlUpdate takeoffArrivalState) 0
      ⟨0, 0, 1⟩ (Or.inr (Or.inr (Or.inr hm))) htp0]
    simp only [Nat.cast_zero, Function.update_same]
    rw [hpc, hpos, hyawe, hty, hdt]
    show some ((PositionController.init.compute_control ⟨0, 0, 0.95⟩ ⟨0, 0, 1⟩
      0 0 ((1 : ℝ) / 60)).1.1) = some ⟨0, 0, 192001 / 120000⟩
    rw [hcc]

open SwarmState in
/-- Claim C2 counterexample: a drone in Landing mode at `z = 0.1 < 0.15`
whose z-axis PID carries integral 1 auto-transitions to Idle in
`_control_update`, but its PositionController is NOT reset: the integral
is still 1 afterwards. -/
theorem landing_idle_no_controller_reset_cex :
    (controlUpdate landingArrivalState).drone_modes 0 = .idle ∧
    ((controlUpdate landingArrivalState).position_controllers 0).pid_z.integral = 1 ∧
    (1 : ℝ) ≠ 0 := by
  have h1 : controlUpdate landingArrivalState =
      controlUpdate1 landingArrivalState 0 := by
    unfold controlUpdate
    rw [show List.range landingArrivalState.num_drones = [0] from rfl]
    rfl
  refine ⟨?_, ?_, by norm_num⟩
  · rw [h1]
    unfold controlUpdate1
    norm_num [landingArrivalState, mkWorld, Function.update_same]
  · rw [h1]
    unfold controlUpdate1
    norm_num [landingArrivalState, mkWorld]

open SwarmState in
/-- Claim C2 (amended): the four PID `(integral, prev_error)` pairs of a
drone's PositionController are cleared on the `reset` command
(`_reset_simulation` calls `reset()` for each drone) and replaced by
fresh controllers on `spawn`/`respawn`; the automatic Landing-to-Idle
transition in `_control_update`, however, leaves all position
controllers untouched (no reset on re-entering Idle). -/
theorem controller_reset_on_reset_respawn (s : SwarmState) (i : ℤ) (k : Nat)
    (hi : 0 ≤ i ∧ i < (s.num_drones : ℤ)) :
    ((resetSimulation s).position_controllers i).pid_x.integral = 0 ∧
    ((resetSimulation s).position_controllers i).pid_x.prev_error = 0 ∧
    ((resetSimulation s).position_controllers i).pid_y.integral = 0 ∧
    ((resetSimulation s).position_controllers i).pid_y.prev_error = 0 ∧
    ((resetSimulation s).position_controllers i).pid_z.integral = 0 ∧
    ((resetSimulation s).position_controllers i).pid_z.prev_error = 0 ∧
    ((resetSimulation s).position_controllers i).pid_yaw.integral = 0 ∧
    ((resetSimulation s).position_controllers i).pid_yaw.prev_error = 0 ∧
    (respawn s k).position_controllers i = PositionController.init ∧
    (controlUpdate s).position_controllers = s.position_controllers := by
  have hr : (resetSimulation s).position_controllers i =
      (s.position_controllers i).reset := by
    show (if 0 ≤ i ∧ i < (s.num_drones : ℤ) then (s.position_controllers i).reset
          else s.position_controllers i) = _
    rw [if_pos hi]
  refine ⟨?_, ?_, ?_, ?_, ?_, ?_, ?_, ?_, rfl, ?_⟩
  · rw [hr]; rfl
  · rw [hr]; rfl
  · rw [hr]; rfl
  · rw [hr]; rfl
  · rw [hr]; rfl
  · rw [hr]; rfl
  · rw [hr]; rfl
  · rw [hr]; rfl
  · exact (foldl_controlUpdate1_fields (List.range s.num_drones) s).2.2.2.2.2.2.2.2.1

open SwarmState in
/-- Witness for `controller_reset_on_reset_respawn`: the two-drone
initial world, drone 0, respawn count 3. -/
theorem controller_reset_on_reset_respawn_witness :
    ((0 : ℤ) ≤ 0 ∧ (0 : ℤ) < ((mkWorld 2).num_drones : ℤ)) ∧
    (((resetSimulation (mkWorld 2)).position_controllers 0).pid_x.integral = 0 ∧
     ((resetSimulation (mkWorld 2)).position_controllers 0).pid_x.prev_error = 0 ∧
     ((resetSimulation (mkWorld 2)).position_controllers 0).pid_y.integral = 0 ∧
     ((resetSimulation (mkWorld 2)).position_controllers 0).pid_y.prev_error = 0 ∧
     ((resetSimulation (mkWorld 2)).position_controllers 0).pid_z.integral = 0 ∧
     ((resetSimulation (mkWorld 2)).position_controllers 0).pid_z.prev_error = 0 ∧
     ((resetSimulation (mkWorld 2)).position_controllers 0).pid_yaw.integral = 0 ∧
     ((resetSimulation (mkWorld 2)).position_controllers 0).pid_yaw.prev_error = 0 ∧
     (respawn (mkWorld 2) 3).position_controllers 0 = PositionController.init ∧
     (controlUpdate (mkWorld 2)).position_controllers =
       (mkWorld 2).position_controllers) :=
  ⟨by norm_num [mkWorld],
   controller_reset_on_reset_respawn (mkWorld 2) 0 3 (by norm_num [mkWorld])⟩

open SwarmState in
/-- Claim C3 counterexample: in a one-drone world, a queued
`takeoff` command addressing the nonexistent drone id 1 makes `step`
itself return an error (modelling the `IndexError` that propagates out
of `SwarmWorld.step` from `_get_position`), instead of the command being
dropped without raising an error out of the step loop. -/
theorem invalid_id_error_escapes_step_cex :
    step invalidIdState (fun _ => Vec3.zero) (fun _ => 0) =
      .error "IndexError" := rfl

open SwarmState in
/-- Claim C3 (amended): `_execute_command` performs no drone-id
validation. A `takeoff` (likewise `land`/`hover`) command whose explicit
id is `≥ N` raises an `IndexError` from the engine state array, which
propagates out of the dispatch (and hence out of `step`); a `goto`
command with the same out-of-range id never touches the engine and is
applied without error, merely recording mode/target entries under the
phantom id while leaving the mode, targets, battery, health and
controllers of every other drone (in particular every existing drone)
unchanged. Id validation exists only in the HTTP boundary layer
(`main.py`), not at dispatch. -/
theorem invalid_id_dispatch_amended (s : SwarmState) (id : ℤ)
    (alt x y z yaw : ℝ) (hid : (s.num_drones : ℤ) ≤ id) :
    (∃ e, executeCommand s (.takeoff (.ids [id]) alt) = .error e) ∧
    (∃ s', executeCommand s (.goto (.ids [id]) id x y z yaw) = .ok s' ∧
       (∀ j : ℤ, j ≠ id →
          s'.drone_modes j = s.drone_modes j ∧
          s'.target_positions j = s.target_positions j ∧
          s'.target_yaws j = s.target_yaws j) ∧
       s'.target_velocities = s.target_velocities ∧
       s'.batteries = s.batteries ∧
       s'.health_status = s.health_status ∧
       s'.position_controllers = s.position_controllers ∧
       s'.num_drones = s.num_drones) := by
  have hid0 : (0 : ℤ) ≤ id := le_trans (Int.ofNat_nonneg _) hid
  constructor
  · refine ⟨"IndexError", ?_⟩
    have hgp : s.getPosition id = .error "IndexError" := by
      unfold getPosition
      rw [if_neg (fun hc => absurd hc.2 (not_lt.mpr hid)),
        if_neg (fun hc => absurd hc.2 (not_lt.mpr hid0))]
    have htd : takeoffDrone s id alt = .error "IndexError" := by
      unfold takeoffDrone
      rw [hgp]
      rfl
    show ([id].foldlM (fun s i => takeoffDrone s i alt) s) = .error "IndexError"
    rw [List.foldlM_cons, htd]
    rfl
  · refine ⟨_, rfl, ?_, rfl, rfl, rfl, rfl, rfl⟩
    intro j hj
    exact ⟨Function.update_noteq hj _ _, Function.update_noteq hj _ _,
      Function.update_noteq hj _ _⟩

open SwarmState in
/-- Witness for `invalid_id_dispatch_amended`: one-drone world, id 5. -/
theorem invalid_id_dispatch_amended_witness :
    ((mkWorld 1).num_drones : ℤ) ≤ 5 ∧
    ((∃ e, executeCommand (mkWorld 1) (.takeoff (.ids [5]) 1) = .error e) ∧
     (∃ s', executeCommand (mkWorld 1) (.goto (.ids [5]) 5 0 0 0 0) = .ok s' ∧
        (∀ j : ℤ, j ≠ 5 →
           s'.drone_modes j = (mkWorld 1).drone_modes j ∧
           s'.target_positions j = (mkWorld 1).target_positions j ∧
           s'.target_yaws j = (mkWorld 1).target_yaws j) ∧
        s'.target_velocities = (mkWorld 1).target_velocities ∧
        s'.batteries = (mkWorld 1).batteries ∧
        s'.health_status = (mkWorld 1).health_status ∧
        s'.position_controllers = (mkWorld 1).position_controllers ∧
        s'.num_drones = (mkWorld 1).num_drones)) :=
  ⟨by norm_num [mkWorld],
   invalid_id_dispatch_amended (mkWorld 1) 5 1 0 0 0 0 (by norm_num [mkWorld])⟩

open SwarmState in
/-- Claim C6: `_update_batteries` (applied by `step` exactly when the
incremented `step_count` is a multiple of `physics_hz`, i.e. once per
simulated second) subtracts `battery_drain_rate/60` (floored at 0) from
every non-Idle drone and leaves Idle drones unchanged; consequently,
running the two-drone endurance scenario (drone 0 in Velocity mode,
drone 1 Idle, drain rate 0.5 %/min) for any `n` physics steps at 240 Hz
gives drone 0 battery `max 0 (100 - (n/240)·(0.5/60))` and drone 1
battery 100, and after 28800 steps (120 simulated seconds) drone 0 reads
exactly 99.0. -/
theorem battery_drain_spec :
    (∀ (s : SwarmState) (i : Nat), i < s.num_drones →
        (updateBatteries s).batteries (i : ℤ) =
          if s.drone_modes (i : ℤ) ≠ .idle
          then max 0 (s.batteries (i : ℤ) - s.battery_drain_rate / 60)
          else s.batteries (i : ℤ)) ∧
    (∀ (p : Nat → Nat → Vec3) (y : Nat → Nat → ℝ) (n : Nat),
        ∃ s', runSteps enduranceState p y n = .ok s' ∧
          s'.batteries 0 = max 0 (100 - ((n / 240 : ℕ) : ℝ) * (0.5 / 60)) ∧
          s'.batteries 1 = 100) ∧
    (∀ (p : Nat → Nat → Vec3) (y : Nat → Nat → ℝ),
        ∃ s', runSteps enduranceState p y 28800 = .ok s' ∧
          s'.batteries 0 = 99 ∧ s'.batteries 1 = 100) := by
  refine ⟨?_, ?_, ?_⟩
  · intro s i hi
    unfold updateBatteries
    have h := foldl_updateBatteries1_at (List.range s.num_drones) s i
      (List.nodup_range s.num_drones)
    rwa [if_pos (List.mem_range.mpr hi)] at h
  · intro p y n
    obtain ⟨s', hrun, _, _, _, _, _, _, _, hb0, hb1⟩ := runSteps_endurance p y n
    exact ⟨s', hrun, hb0, hb1⟩
  · intro p y
    obtain ⟨s', hrun, _, _, _, _, _, _, _, hb0, hb1⟩ := runSteps_endurance p y 28800
    refine ⟨s', hrun, ?_, hb1⟩
    rw [hb0]
    norm_num

open SwarmState in
/-- Witness for `battery_drain_spec`'s quantified first conjunct: the
endurance scenario itself, drone 0 (in Velocity mode). -/
theorem battery_drain_spec_witness :
    0 < enduranceState.num_drones ∧
    (updateBatteries enduranceState).batteries ((0 : ℕ) : ℤ) =
      (if enduranceState.drone_modes ((0 : ℕ) : ℤ) ≠ .idle
       then max 0 (enduranceState.batteries ((0 : ℕ) : ℤ) -
              enduranceState.battery_drain_rate / 60)
       else enduranceState.batteries ((0 : ℕ) : ℤ)) :=
  ⟨by norm_num [enduranceState, mkWorld],
   battery_drain_spec.1 enduranceState 0 (by norm_num [enduranceState, mkWorld])⟩

end AUSLab
